import Mathlib

/-!
Verification development for the orb-predicates repository: a shallow
embedding of the DE-9IM predicate engine (Within, Contains, Covers,
CoveredBy, Intersects, Disjoint, Touches, Crosses, Overlaps) over the
orb geometry variants, together with theorems settling the claims about
the engine.

Embedding conventions.
Go float64 coordinates are modelled as exact rationals, represented as
pairs of integers with a positive denominator that is never reduced
(no gcd), so that every arithmetic step is plain integer arithmetic and
closed evaluations reduce inside the kernel.  Functions of the source
that recurse through the Collection variant are embedded with an
explicit fuel argument that decreases structurally; the public wrapper
supplies fuel strictly larger than the collection-nesting depth of the
argument the recursion descends, so the zero-fuel branch is never
reached and the wrapper agrees with the Go function.
-/

namespace OrbPred

/-- Exact rational number: numerator and denominator.  Every operation
below keeps the invariant that the denominator is positive, and no
operation reduces the fraction, so all comparisons are by
cross-multiplication. -/
structure Q where
  n : Int
  d : Int

/-- Build a rational from an integer. -/
def qi (i : Int) : Q := ⟨i, 1⟩

def qAdd (a b : Q) : Q := ⟨a.n * b.d + b.n * a.d, a.d * b.d⟩

def qSub (a b : Q) : Q := ⟨a.n * b.d - b.n * a.d, a.d * b.d⟩

def qMul (a b : Q) : Q := ⟨a.n * b.n, a.d * b.d⟩

def qNeg (a : Q) : Q := ⟨-a.n, a.d⟩

/-- Division.  Division by zero is never reached on the paths the
source exercises (each division in the source is guarded); it is made
total by returning zero. -/
def qDiv (a b : Q) : Q :=
  if 0 < b.n then ⟨a.n * b.d, a.d * b.n⟩
  else if b.n < 0 then ⟨-(a.n * b.d), a.d * (-b.n)⟩
  else ⟨0, 1⟩

def qLt (a b : Q) : Bool := a.n * b.d < b.n * a.d

def qLe (a b : Q) : Bool := a.n * b.d ≤ b.n * a.d

def qEq (a b : Q) : Bool := a.n * b.d == b.n * a.d

def qAbs (a : Q) : Q := ⟨if a.n < 0 then -a.n else a.n, a.d⟩

/-- Go math.Min on exact rationals. -/
def qMin (a b : Q) : Q := if qLt a b then a else b

/-- Go math.Max on exact rationals. -/
def qMax (a b : Q) : Q := if qLt a b then b else a

/-- Integer square root by Newton iteration with structural fuel; the
iteration stabilises long before the fuel runs out. -/
def isqrtAux : Nat → Nat → Nat → Nat
  | 0, _, guess => guess
  | fuel + 1, n, guess =>
    let next := (guess + n / guess) / 2
    if next < guess then isqrtAux fuel n next else guess

def intSqrt (n : Nat) : Nat :=
  if n ≤ 1 then n else isqrtAux n n (n / 2 + 1)

/-- Go math.Sqrt on the exact-rational model.  For a radicand that is
the square of a rational the result is that exact square root (this is
the case on every path a claim evaluates); for other radicands the
float result is irrational, which the exact model cannot represent, and
the model returns zero. -/
def qSqrt (a : Q) : Q :=
  if a.n ≤ 0 then ⟨0, 1⟩
  else
    let p := a.n.toNat
    let q := a.d.toNat
    let s := intSqrt (p * q)
    if s * s == p * q then ⟨Int.ofNat s, Int.ofNat q⟩ else ⟨0, 1⟩

/-- The global tolerance of the engine, 1e-10. -/
def epsilon : Q := ⟨1, 10000000000⟩

/-- A planar point (orb.Point). -/
structure Pt where
  x : Q
  y : Q

/-- Midpoint of two points, as computed throughout the source by
(a+b)/2 on each coordinate. -/
def midpoint (a b : Pt) : Pt :=
  ⟨qDiv (qAdd a.x b.x) (qi 2), qDiv (qAdd a.y b.y) (qi 2)⟩

/-- Consecutive-vertex edges of a vertex list: the pairs (l[i], l[i+1])
for i from 0 to len-2, matching the loops of the source. -/
def edges (l : List Pt) : List (Pt × Pt) := l.zip l.tail

/-- Interior vertices of a vertex list: l[i] for i from 1 to len-2. -/
def innerVertices (l : List Pt) : List Pt := (l.drop 1).dropLast

/-- An axis-aligned rectangle (orb.Bound). -/
structure GBound where
  min : Pt
  max : Pt

/-- Modelled from the spec: the orb geometry model is an external
collaborator (spec section 1); orb represents the empty bound by the
sentinel rectangle with min (1,1) and max (-1,-1). -/
def emptyBound : GBound := ⟨⟨qi 1, qi 1⟩, ⟨qi (-1), qi (-1)⟩⟩

/-- Modelled from the spec: orb Bound.IsEmpty, true when min exceeds
max on some axis. -/
def gboundIsEmpty (b : GBound) : Bool :=
  qLt b.max.x b.min.x || qLt b.max.y b.min.y

/-- Modelled from the spec: orb Bound.Contains, the exact closed
rectangle test (no tolerance). -/
def gboundContains (b : GBound) (p : Pt) : Bool :=
  !(qLt p.y b.min.y) && !(qLt b.max.y p.y) &&
  !(qLt p.x b.min.x) && !(qLt b.max.x p.x)

/-- Modelled from the spec: orb Bound.Extend grows the rectangle to
include a point (the source short-circuits when the point is already
inside, which yields the same rectangle). -/
def gboundExtend (b : GBound) (p : Pt) : GBound :=
  ⟨⟨qMin b.min.x p.x, qMin b.min.y p.y⟩, ⟨qMax b.max.x p.x, qMax b.max.y p.y⟩⟩

/-- Modelled from the spec: orb Bound.Union; orb extends by the four
corners of the other rectangle, which equals extending by its min and
max corners.  A bound whose partner is empty is returned unchanged; an
empty receiver is not special-cased, exactly as in orb. -/
def gboundUnion (b o : GBound) : GBound :=
  if gboundIsEmpty o then b else gboundExtend (gboundExtend b o.min) o.max

/-- Modelled from the spec: the bound of a point sequence (orb
MultiPoint.Bound): the empty sequence gives the sentinel empty bound,
otherwise the fold of Extend starting from the first point. -/
def ptsBound (ps : List Pt) : GBound :=
  match ps with
  | [] => emptyBound
  | p :: _ => ps.foldl gboundExtend ⟨p, p⟩

/-- Modelled from the spec: the external point-in-ring oracle
(planar.RingContains).  The spec leaves its behaviour on boundary
points unspecified; off the boundary it is conventional even-odd ray
casting.  As in orb it first rejects points outside the exact bound of
the ring and treats the ring as implicitly closed (an edge from the
last vertex back to the first). -/
def rayCrossesEdge (p s e : Pt) : Bool :=
  (qLt p.y s.y != qLt p.y e.y) &&
  qLt p.x (qAdd s.x (qDiv (qMul (qSub p.y s.y) (qSub e.x s.x)) (qSub e.y s.y)))

def closedEdges (r : List Pt) : List (Pt × Pt) :=
  match r with
  | [] => []
  | p :: rest => edges (p :: rest) ++ [((p :: rest).getLastD p, p)]

def ringContains (r : List Pt) (p : Pt) : Bool :=
  gboundContains (ptsBound r) p &&
  (closedEdges r).foldl (fun c e => if rayCrossesEdge p e.1 e.2 then !c else c) false

/-- Modelled from the spec: the external point-in-polygon oracle
(planar.PolygonContains): inside the exterior ring and outside every
hole.  The source would fault on a polygon with no rings; the model
returns false there (the engine only reaches the oracle on polygons it
has not already rejected as empty, except through collection members,
where a false answer matches the surrounding disjunctions). -/
def polygonContains (poly : List (List Pt)) (p : Pt) : Bool :=
  match poly with
  | [] => false
  | ext :: holes => ringContains ext p && holes.all fun h => !ringContains h p

/-! Numeric and segment primitives, from src/helpers.go. -/

/-- helpers.go sign: -1, 0 or +1 with the global tolerance. -/
def sign (x : Q) : Int :=
  if qLt x (qNeg epsilon) then -1
  else if qLt epsilon x then 1
  else 0

/-- helpers.go cross2D. -/
def cross2D (p1 p2 p3 : Pt) : Q :=
  qSub (qMul (qSub p2.x p1.x) (qSub p3.y p1.y)) (qMul (qSub p2.y p1.y) (qSub p3.x p1.x))

/-- helpers.go pointsEqual. -/
def pointsEqual (p1 p2 : Pt) : Bool :=
  qLt (qAbs (qSub p1.x p2.x)) epsilon && qLt (qAbs (qSub p1.y p2.y)) epsilon

/-- helpers.go pointOnSegment. -/
def pointOnSegment (p a b : Pt) : Bool :=
  if qLt epsilon (qAbs (cross2D a b p)) then false
  else
    let minX := qMin a.x b.x
    let maxX := qMax a.x b.x
    let minY := qMin a.y b.y
    let maxY := qMax a.y b.y
    qLe (qSub minX epsilon) p.x && qLe p.x (qAdd maxX epsilon) &&
    qLe (qSub minY epsilon) p.y && qLe p.y (qAdd maxY epsilon)

/-- helpers.go pointOnSegmentInterior. -/
def pointOnSegmentInterior (p a b : Pt) : Bool :=
  if pointsEqual p a || pointsEqual p b then false
  else pointOnSegment p a b

/-- helpers.go segmentsIntersect. -/
def segmentsIntersect (p1 p2 p3 p4 : Pt) : Bool :=
  let d1 := sign (cross2D p3 p4 p1)
  let d2 := sign (cross2D p3 p4 p2)
  let d3 := sign (cross2D p1 p2 p3)
  let d4 := sign (cross2D p1 p2 p4)
  (((d1 > 0 && d2 < 0) || (d1 < 0 && d2 > 0)) &&
   ((d3 > 0 && d4 < 0) || (d3 < 0 && d4 > 0))) ||
  (d1 == 0 && pointOnSegment p1 p3 p4) ||
  (d2 == 0 && pointOnSegment p2 p3 p4) ||
  (d3 == 0 && pointOnSegment p3 p1 p2) ||
  (d4 == 0 && pointOnSegment p4 p1 p2)

/-- helpers.go segmentsOverlapInterior: collinear segments with
interior overlap beyond the tolerance. -/
def segmentsOverlapInterior (p1 p2 p3 p4 : Pt) : Bool :=
  let proj : Q × Q × Q × Q :=
    if qLt (qAbs (qSub p2.y p1.y)) (qAbs (qSub p2.x p1.x)) then
      (p1.x, p2.x, p3.x, p4.x)
    else
      (p1.y, p2.y, p3.y, p4.y)
  match proj with
  | (t1, t2, t3, t4) =>
    let s1 := qMin t1 t2
    let e1 := qMax t1 t2
    let s3 := qMin t3 t4
    let e3 := qMax t3 t4
    qLt epsilon (qSub (qMin e1 e3) (qMax s1 s3))

/-- helpers.go segmentsIntersectInterior. -/
def segmentsIntersectInterior (p1 p2 p3 p4 : Pt) : Bool :=
  let d1 := sign (cross2D p3 p4 p1)
  let d2 := sign (cross2D p3 p4 p2)
  let d3 := sign (cross2D p1 p2 p3)
  let d4 := sign (cross2D p1 p2 p4)
  (((d1 > 0 && d2 < 0) || (d1 < 0 && d2 > 0)) &&
   ((d3 > 0 && d4 < 0) || (d3 < 0 && d4 > 0))) ||
  (d1 == 0 && d2 == 0 && d3 == 0 && d4 == 0 && segmentsOverlapInterior p1 p2 p3 p4)

/-- helpers.go segmentsAreCollinear. -/
def segmentsAreCollinear (p1 p2 p3 p4 : Pt) : Bool :=
  sign (cross2D p3 p4 p1) == 0 && sign (cross2D p3 p4 p2) == 0 &&
  sign (cross2D p1 p2 p3) == 0 && sign (cross2D p1 p2 p4) == 0

/-- helpers.go segmentsCrossProper. -/
def segmentsCrossProper (p1 p2 p3 p4 : Pt) : Bool :=
  let d1 := sign (cross2D p3 p4 p1)
  let d2 := sign (cross2D p3 p4 p2)
  let d3 := sign (cross2D p1 p2 p3)
  let d4 := sign (cross2D p1 p2 p4)
  ((d1 > 0 && d2 < 0) || (d1 < 0 && d2 > 0)) &&
  ((d3 > 0 && d4 < 0) || (d3 < 0 && d4 > 0))

/-! Membership primitives, from src/helpers.go. -/

/-- helpers.go pointOnRingBoundary (rings of fewer than two points have
no boundary; the ring is not implicitly closed here). -/
def pointOnRingBoundary (p : Pt) (r : List Pt) : Bool :=
  if r.length < 2 then false
  else (edges r).any fun e => pointOnSegment p e.1 e.2

/-- helpers.go pointOnPolygonBoundary. -/
def pointOnPolygonBoundary (p : Pt) (poly : List (List Pt)) : Bool :=
  poly.any fun ring => pointOnRingBoundary p ring

/-- helpers.go pointInRingInterior. -/
def pointInRingInterior (p : Pt) (r : List Pt) : Bool :=
  if pointOnRingBoundary p r then false
  else ringContains r p

/-- helpers.go pointInPolygonInterior. -/
def pointInPolygonInterior (p : Pt) (poly : List (List Pt)) : Bool :=
  if pointOnPolygonBoundary p poly then false
  else polygonContains poly p

/-- helpers.go ringsIntersect. -/
def ringsIntersect (r1 r2 : List Pt) : Bool :=
  ((edges r1).any fun e1 => (edges r2).any fun e2 =>
    segmentsIntersect e1.1 e1.2 e2.1 e2.2) ||
  (match r1 with
   | [] => false
   | p :: _ => ringContains r2 p) ||
  (match r2 with
   | [] => false
   | p :: _ => ringContains r1 p)

/-- helpers.go ringBoundariesIntersect. -/
def ringBoundariesIntersect (r1 r2 : List Pt) : Bool :=
  (edges r1).any fun e1 => (edges r2).any fun e2 =>
    segmentsIntersect e1.1 e1.2 e2.1 e2.2

/-- helpers.go lineStringsIntersect. -/
def lineStringsIntersect (ls1 ls2 : List Pt) : Bool :=
  (edges ls1).any fun e1 => (edges ls2).any fun e2 =>
    segmentsIntersect e1.1 e1.2 e2.1 e2.2

/-- helpers.go lineStringIntersectsRing. -/
def lineStringIntersectsRing (ls r : List Pt) : Bool :=
  (edges ls).any fun e1 => (edges r).any fun e2 =>
    segmentsIntersect e1.1 e1.2 e2.1 e2.2

/-- helpers.go boundContainsPoint: closed rectangle with tolerance. -/
def boundContainsPoint (b : GBound) (p : Pt) : Bool :=
  qLe (qSub b.min.x epsilon) p.x && qLe p.x (qAdd b.max.x epsilon) &&
  qLe (qSub b.min.y epsilon) p.y && qLe p.y (qAdd b.max.y epsilon)

/-- helpers.go boundContainsPointInterior: strict on every side. -/
def boundContainsPointInterior (b : GBound) (p : Pt) : Bool :=
  qLt (qAdd b.min.x epsilon) p.x && qLt p.x (qSub b.max.x epsilon) &&
  qLt (qAdd b.min.y epsilon) p.y && qLt p.y (qSub b.max.y epsilon)

/-- helpers.go pointOnBoundBoundary. -/
def pointOnBoundBoundary (p : Pt) (b : GBound) : Bool :=
  if !boundContainsPoint b p then false
  else
    qLt (qAbs (qSub p.x b.min.x)) epsilon ||
    qLt (qAbs (qSub p.x b.max.x)) epsilon ||
    qLt (qAbs (qSub p.y b.min.y)) epsilon ||
    qLt (qAbs (qSub p.y b.max.y)) epsilon

/-- helpers.go boundToPolygon: the five-vertex rectangle ring. -/
def boundToPolygon (b : GBound) : List (List Pt) :=
  [[⟨b.min.x, b.min.y⟩, ⟨b.max.x, b.min.y⟩, ⟨b.max.x, b.max.y⟩,
    ⟨b.min.x, b.max.y⟩, ⟨b.min.x, b.min.y⟩]]

/-! The geometry sum type and its structural measures. -/

/-- The orb geometry variants (a tagged sum, as in the source). -/
inductive Geometry where
  | point (p : Pt)
  | multiPoint (ps : List Pt)
  | lineString (ls : List Pt)
  | multiLineString (mls : List (List Pt))
  | ring (r : List Pt)
  | polygon (poly : List (List Pt))
  | multiPolygon (mp : List (List (List Pt)))
  | collection (gs : List Geometry)
  | bound (b : GBound)

mutual

/-- Collection-nesting depth of a geometry; fuel bounds for the
embedded recursive dispatchers are computed from it. -/
def gdepth : Geometry → Nat
  | .point _ => 0
  | .multiPoint _ => 0
  | .lineString _ => 0
  | .multiLineString _ => 0
  | .ring _ => 0
  | .polygon _ => 0
  | .multiPolygon _ => 0
  | .collection gs => 1 + gdepthL gs
  | .bound _ => 0

def gdepthL : List Geometry → Nat
  | [] => 0
  | g :: gs => Nat.max (gdepth g) (gdepthL gs)

end

mutual

/-- helpers.go getGeometryDimension: 0 for points, 1 for lines, 2 for
areas, and for a collection the maximum over its members starting
from -1. -/
def gdim : Geometry → Int
  | .point _ => 0
  | .multiPoint _ => 0
  | .lineString _ => 1
  | .multiLineString _ => 1
  | .ring _ => 2
  | .polygon _ => 2
  | .multiPolygon _ => 2
  | .bound _ => 2
  | .collection gs => gdimL gs

def gdimL : List Geometry → Int
  | [] => -1
  | g :: gs => max (gdim g) (gdimL gs)

end

/-- helpers.go isEmpty. -/
def isEmpty : Geometry → Bool
  | .point _ => false
  | .multiPoint ps => ps.isEmpty
  | .lineString ls => ls.isEmpty
  | .multiLineString mls => mls.isEmpty
  | .ring r => r.isEmpty
  | .polygon poly =>
    match poly with
    | [] => true
    | ext :: _ => ext.isEmpty
  | .multiPolygon mp => mp.isEmpty
  | .collection gs => gs.isEmpty
  | .bound b => gboundIsEmpty b

/-- Modelled from the spec: orb Polygon.Bound, the bound of the
exterior ring (holes are not consulted). -/
def polyBound (poly : List (List Pt)) : GBound :=
  match poly with
  | [] => emptyBound
  | ext :: _ => ptsBound ext

mutual

/-- Modelled from the spec: the bound() accessor of the geometry model
(spec section 2 item 1), implemented in the external orb library: the
axis-aligned bounding rectangle of each variant, where a polygon's
bound is the bound of its exterior ring and multi-part bounds are the
union of the member bounds starting from the first member. -/
def geomBound : Geometry → GBound
  | .point p => ⟨p, p⟩
  | .multiPoint ps => ptsBound ps
  | .lineString ls => ptsBound ls
  | .multiLineString mls =>
    match mls with
    | [] => emptyBound
    | ls :: rest => rest.foldl (fun b l => gboundUnion b (ptsBound l)) (ptsBound ls)
  | .ring r => ptsBound r
  | .polygon poly => polyBound poly
  | .multiPolygon mp =>
    match mp with
    | [] => emptyBound
    | poly :: rest => rest.foldl (fun b p => gboundUnion b (polyBound p)) (polyBound poly)
  | .collection gs =>
    match gs with
    | [] => emptyBound
    | g :: rest => geomBoundFold (geomBound g) rest
  | .bound b => b

def geomBoundFold : GBound → List Geometry → GBound
  | b, [] => b
  | b, g :: gs => geomBoundFold (gboundUnion b (geomBound g)) gs

end

/-- helpers.go boundingBoxOverlap. -/
def boundingBoxOverlap (a b : Geometry) : Bool :=
  let ba := geomBound a
  let bb := geomBound b
  qLe ba.min.x (qAdd bb.max.x epsilon) &&
  qLe (qSub bb.min.x epsilon) ba.max.x &&
  qLe ba.min.y (qAdd bb.max.y epsilon) &&
  qLe (qSub bb.min.y epsilon) ba.max.y

/-! Intersects and Disjoint, from src/intersects.go and
src/unnamed/part_001. -/

/-- intersects.go pointIntersectsLineString. -/
def pointIntersectsLineString (p : Pt) (ls : List Pt) : Bool :=
  match ls with
  | [] => false
  | [q] => pointsEqual p q
  | _ => (edges ls).any fun e => pointOnSegment p e.1 e.2

/-- intersects.go lineStringIntersectsRingOrInterior. -/
def lineStringIntersectsRingOrInterior (ls r : List Pt) : Bool :=
  lineStringIntersectsRing ls r || ls.any fun p => ringContains r p

/-- intersects.go lineStringIntersectsPolygon. -/
def lineStringIntersectsPolygon (ls : List Pt) (poly : List (List Pt)) : Bool :=
  match poly with
  | [] => false
  | _ =>
    (poly.any fun ring => lineStringIntersectsRing ls ring) ||
    (ls.any fun p => polygonContains poly p)

/-- intersects.go lineStringIntersectsBound. -/
def lineStringIntersectsBound (ls : List Pt) (b : GBound) : Bool :=
  lineStringIntersectsPolygon ls (boundToPolygon b)

/-- intersects.go ringIntersectsPolygon. -/
def ringIntersectsPolygon (r : List Pt) (poly : List (List Pt)) : Bool :=
  match poly with
  | [] => false
  | ext :: _ =>
    (poly.any fun polyRing => ringBoundariesIntersect r polyRing) ||
    (match r with
     | [] => false
     | p :: _ => polygonContains poly p) ||
    (match ext with
     | [] => false
     | p :: _ => ringContains r p)

/-- intersects.go polygonsIntersect. -/
def polygonsIntersect (p1 p2 : List (List Pt)) : Bool :=
  match p1, p2 with
  | [], _ => false
  | _, [] => false
  | e1 :: _, e2 :: _ =>
    (p1.any fun r1 => p2.any fun r2 => ringBoundariesIntersect r1 r2) ||
    (match e1 with
     | [] => false
     | p :: _ => polygonContains p2 p) ||
    (match e2 with
     | [] => false
     | p :: _ => polygonContains p1 p)

/-- intersects.go intersectsPoint: fuelled form, recursing through
collection operands on the right. -/
def intersectsPointF : Nat → Pt → Geometry → Bool
  | 0, _, _ => false
  | fuel + 1, p, b =>
    match b with
    | .point q => pointsEqual p q
    | .multiPoint ps => ps.any fun q => pointsEqual p q
    | .lineString ls => pointIntersectsLineString p ls
    | .multiLineString mls => mls.any fun ls => pointIntersectsLineString p ls
    | .ring r => ringContains r p || pointOnRingBoundary p r
    | .polygon poly => polygonContains poly p || pointOnPolygonBoundary p poly
    | .multiPolygon mp =>
      mp.any fun poly => polygonContains poly p || pointOnPolygonBoundary p poly
    | .collection gs => gs.any fun g => intersectsPointF fuel p g
    | .bound bd => boundContainsPoint bd p

/-- intersects.go intersectsPoint. -/
def intersectsPoint (p : Pt) (b : Geometry) : Bool :=
  intersectsPointF (gdepth b + 1) p b

/-- intersects.go intersectsMultiPoint. -/
def intersectsMultiPoint (mp : List Pt) (b : Geometry) : Bool :=
  mp.any fun p => intersectsPoint p b

/-- intersects.go intersectsLineString: fuelled form. -/
def intersectsLineStringF : Nat → List Pt → Geometry → Bool
  | 0, _, _ => false
  | fuel + 1, ls, b =>
    match b with
    | .point q => pointIntersectsLineString q ls
    | .multiPoint ps => ps.any fun p => pointIntersectsLineString p ls
    | .lineString ls2 => lineStringsIntersect ls ls2
    | .multiLineString mls => mls.any fun ls2 => lineStringsIntersect ls ls2
    | .ring r => lineStringIntersectsRingOrInterior ls r
    | .polygon poly => lineStringIntersectsPolygon ls poly
    | .multiPolygon mp => mp.any fun poly => lineStringIntersectsPolygon ls poly
    | .collection gs => gs.any fun g => intersectsLineStringF fuel ls g
    | .bound bd => lineStringIntersectsBound ls bd

/-- intersects.go intersectsLineString. -/
def intersectsLineString (ls : List Pt) (b : Geometry) : Bool :=
  intersectsLineStringF (gdepth b + 1) ls b

/-- intersects.go intersectsMultiLineString. -/
def intersectsMultiLineString (mls : List (List Pt)) (b : Geometry) : Bool :=
  mls.any fun ls => intersectsLineString ls b

/-- intersects.go intersectsRing: fuelled form. -/
def intersectsRingF : Nat → List Pt → Geometry → Bool
  | 0, _, _ => false
  | fuel + 1, r, b =>
    match b with
    | .point q => ringContains r q || pointOnRingBoundary q r
    | .multiPoint ps => ps.any fun p => ringContains r p || pointOnRingBoundary p r
    | .lineString ls => lineStringIntersectsRingOrInterior ls r
    | .multiLineString mls => mls.any fun ls => lineStringIntersectsRingOrInterior ls r
    | .ring r2 => ringsIntersect r r2
    | .polygon poly => ringIntersectsPolygon r poly
    | .multiPolygon mp => mp.any fun poly => ringIntersectsPolygon r poly
    | .collection gs => gs.any fun g => intersectsRingF fuel r g
    | .bound bd => ringIntersectsPolygon r (boundToPolygon bd)

/-- intersects.go intersectsRing. -/
def intersectsRing (r : List Pt) (b : Geometry) : Bool :=
  intersectsRingF (gdepth b + 1) r b

/-- intersects.go intersectsPolygon: fuelled form. -/
def intersectsPolygonF : Nat → List (List Pt) → Geometry → Bool
  | 0, _, _ => false
  | fuel + 1, poly, b =>
    match b with
    | .point q => polygonContains poly q || pointOnPolygonBoundary q poly
    | .multiPoint ps =>
      ps.any fun p => polygonContains poly p || pointOnPolygonBoundary p poly
    | .lineString ls => lineStringIntersectsPolygon ls poly
    | .multiLineString mls => mls.any fun ls => lineStringIntersectsPolygon ls poly
    | .ring r => ringIntersectsPolygon r poly
    | .polygon poly2 => polygonsIntersect poly poly2
    | .multiPolygon mp => mp.any fun poly2 => polygonsIntersect poly poly2
    | .collection gs => gs.any fun g => intersectsPolygonF fuel poly g
    | .bound bd => polygonsIntersect poly (boundToPolygon bd)

/-- intersects.go intersectsPolygon. -/
def intersectsPolygon (poly : List (List Pt)) (b : Geometry) : Bool :=
  intersectsPolygonF (gdepth b + 1) poly b

/-- intersects.go intersectsMultiPolygon. -/
def intersectsMultiPolygon (mp : List (List (List Pt))) (b : Geometry) : Bool :=
  mp.any fun poly => intersectsPolygon poly b

/-- intersects.go intersectsBound. -/
def intersectsBound (bd : GBound) (b : Geometry) : Bool :=
  intersectsPolygon (boundToPolygon bd) b

/-- intersects.go Intersects: fuelled form, recursing through
collection operands on the left (intersectsCollection applies the full
entry point, guards included, to each member). -/
def IntersectsF : Nat → Geometry → Geometry → Bool
  | 0, _, _ => false
  | fuel + 1, a, b =>
    if !boundingBoxOverlap a b then false
    else if isEmpty a || isEmpty b then false
    else
      match a with
      | .point p => intersectsPoint p b
      | .multiPoint mp => intersectsMultiPoint mp b
      | .lineString ls => intersectsLineString ls b
      | .multiLineString mls => intersectsMultiLineString mls b
      | .ring r => intersectsRing r b
      | .polygon poly => intersectsPolygon poly b
      | .multiPolygon mp => intersectsMultiPolygon mp b
      | .collection gs => gs.any fun g => IntersectsF fuel g b
      | .bound bd => intersectsBound bd b

/-- intersects.go Intersects. -/
def Intersects (a b : Geometry) : Bool :=
  IntersectsF (gdepth a + 1) a b

/-- part_001 Disjoint: the complement of Intersects. -/
def Disjoint (a b : Geometry) : Bool :=
  !Intersects a b

/-! Within and Contains, from src/within.go. -/

/-- within.go pointInLineStringInterior: on an open segment, or equal
to an internal vertex. -/
def pointInLineStringInterior (p : Pt) (ls : List Pt) : Bool :=
  if ls.length < 2 then false
  else
    ((edges ls).any fun e => pointOnSegmentInterior p e.1 e.2) ||
    ((innerVertices ls).any fun v => pointsEqual p v)

/-- within.go withinPoint: fuelled form. -/
def withinPointF : Nat → Pt → Geometry → Bool
  | 0, _, _ => false
  | fuel + 1, p, b =>
    match b with
    | .point q => pointsEqual p q
    | .multiPoint ps => ps.any fun q => pointsEqual p q
    | .lineString ls => pointInLineStringInterior p ls
    | .multiLineString mls => mls.any fun ls => pointInLineStringInterior p ls
    | .ring r => pointInRingInterior p r
    | .polygon poly => pointInPolygonInterior p poly
    | .multiPolygon mp => mp.any fun poly => pointInPolygonInterior p poly
    | .collection gs => gs.any fun g => withinPointF fuel p g
    | .bound bd => boundContainsPointInterior bd p

/-- within.go withinPoint. -/
def withinPoint (p : Pt) (b : Geometry) : Bool :=
  withinPointF (gdepth b + 1) p b

/-- within.go withinMultiPoint (the multi-line-string and
multi-polygon arms test interiority against the first component that
contains the point, matching the break in the source loop). -/
def withinMultiPoint (mp : List Pt) (b : Geometry) : Bool :=
  if mp.isEmpty then false
  else
    match b with
    | .point q => mp.all fun p => pointsEqual p q
    | .multiPoint ps => mp.all fun p => ps.any fun q => pointsEqual p q
    | .lineString ls =>
      (mp.all fun p => pointIntersectsLineString p ls) &&
      (mp.any fun p => pointInLineStringInterior p ls)
    | .multiLineString mls =>
      (mp.all fun p => mls.any fun ls => pointIntersectsLineString p ls) &&
      (mp.any fun p =>
        match mls.find? (fun ls => pointIntersectsLineString p ls) with
        | some ls => pointInLineStringInterior p ls
        | none => false)
    | .ring r =>
      (mp.all fun p => ringContains r p || pointOnRingBoundary p r) &&
      (mp.any fun p => pointInRingInterior p r)
    | .polygon poly =>
      (mp.all fun p => polygonContains poly p || pointOnPolygonBoundary p poly) &&
      (mp.any fun p => pointInPolygonInterior p poly)
    | .multiPolygon mpoly =>
      (mp.all fun p =>
        mpoly.any fun poly => polygonContains poly p || pointOnPolygonBoundary p poly) &&
      (mp.any fun p =>
        match mpoly.find? (fun poly =>
            polygonContains poly p || pointOnPolygonBoundary p poly) with
        | some poly => pointInPolygonInterior p poly
        | none => false)
    | .collection gs => mp.all fun p => gs.any fun g => withinPoint p g
    | .bound bd =>
      (mp.all fun p => boundContainsPoint bd p) &&
      (mp.any fun p => boundContainsPointInterior bd p)

/-- within.go segmentCoversSegment. -/
def segmentCoversSegment (c1 c2 s1 s2 : Pt) : Bool :=
  pointOnSegment s1 c1 c2 && pointOnSegment s2 c1 c2

/-- within.go segmentCoveredByLineString. -/
def segmentCoveredByLineString (a b : Pt) (ls : List Pt) : Bool :=
  ((edges ls).any fun e => segmentCoversSegment e.1 e.2 a b) ||
  (pointIntersectsLineString a ls && pointIntersectsLineString b ls &&
   pointIntersectsLineString (midpoint a b) ls)

/-- within.go lineStringWithinLineString. -/
def lineStringWithinLineString (ls1 ls2 : List Pt) : Bool :=
  if ls2.length < 2 then false
  else
    (ls1.all fun p => pointIntersectsLineString p ls2) &&
    ((edges ls1).all fun e => segmentCoveredByLineString e.1 e.2 ls2) &&
    ((edges ls1).any fun e => pointInLineStringInterior (midpoint e.1 e.2) ls2)

/-- within.go lineStringWithinMultiLineString. -/
def lineStringWithinMultiLineString (ls : List Pt) (mls : List (List Pt)) : Bool :=
  (mls.any fun ls2 => lineStringWithinLineString ls ls2) ||
  ((ls.all fun p => mls.any fun ls2 => pointIntersectsLineString p ls2) &&
   ((edges ls).all fun e =>
     mls.any fun ls2 => pointIntersectsLineString (midpoint e.1 e.2) ls2))

/-- within.go lineStringWithinRing. -/
def lineStringWithinRing (ls r : List Pt) : Bool :=
  (ls.all fun p => ringContains r p || pointOnRingBoundary p r) &&
  ((edges ls).all fun e =>
    let mid := midpoint e.1 e.2
    ringContains r mid || pointOnRingBoundary mid r) &&
  ((edges ls).any fun e => pointInRingInterior (midpoint e.1 e.2) r)

/-- within.go lineStringWithinPolygon. -/
def lineStringWithinPolygon (ls : List Pt) (poly : List (List Pt)) : Bool :=
  match poly with
  | [] => false
  | _ =>
    (ls.all fun p => polygonContains poly p || pointOnPolygonBoundary p poly) &&
    ((edges ls).all fun e =>
      let mid := midpoint e.1 e.2
      polygonContains poly mid || pointOnPolygonBoundary mid poly) &&
    ((edges ls).any fun e => pointInPolygonInterior (midpoint e.1 e.2) poly)

/-- Point at parameter t along a segment, as computed in
lineStringWithinMultiPolygon. -/
def segParamPoint (s e : Pt) (t : Q) : Pt :=
  ⟨qAdd s.x (qMul t (qSub e.x s.x)), qAdd s.y (qMul t (qSub e.y s.y))⟩

/-- within.go lineStringWithinMultiPolygon: closure membership of all
vertices, of 50 uniform samples per segment, and of probe points just
before and after every polygon-vertex y-level crossed by the segment;
plus one strict-interior witness among vertices and midpoints. -/
def lineStringWithinMultiPolygon (ls : List Pt) (mp : List (List (List Pt))) : Bool :=
  if mp.isEmpty || ls.length < 2 then false
  else
    let pointInAnyPoly := fun (p : Pt) =>
      mp.any fun poly => polygonContains poly p || pointOnPolygonBoundary p poly
    (ls.all fun p => pointInAnyPoly p) &&
    ((edges ls).all fun e =>
      (((List.range 50).drop 1).all fun s =>
        pointInAnyPoly (segParamPoint e.1 e.2 (qDiv (qi (Int.ofNat s)) (qi 50)))) &&
      (mp.all fun poly => poly.all fun ring => ring.all fun vertex =>
        let dy := qSub e.2.y e.1.y
        if qLt epsilon (qAbs dy) then
          let t := qDiv (qSub vertex.y e.1.y) dy
          if qLt epsilon t && qLt t (qSub (qi 1) epsilon) then
            [qNeg ⟨1, 10000⟩, ⟨0, 1⟩, (⟨1, 10000⟩ : Q)].all fun offset =>
              let tAdj := qAdd t offset
              if qLt (qi 0) tAdj && qLt tAdj (qi 1) then
                pointInAnyPoly (segParamPoint e.1 e.2 tAdj)
              else true
          else true
        else true)) &&
    ((ls.any fun p => mp.any fun poly => pointInPolygonInterior p poly) ||
     ((edges ls).any fun e =>
       mp.any fun poly => pointInPolygonInterior (midpoint e.1 e.2) poly))

/-- within.go lineStringWithinBound. -/
def lineStringWithinBound (ls : List Pt) (bd : GBound) : Bool :=
  (ls.all fun p => boundContainsPoint bd p) &&
  ((ls.any fun p => boundContainsPointInterior bd p) ||
   ((edges ls).any fun e => boundContainsPointInterior bd (midpoint e.1 e.2)))

/-- within.go withinLineString: fuelled form. -/
def withinLineStringF : Nat → List Pt → Geometry → Bool
  | 0, _, _ => false
  | fuel + 1, ls, b =>
    if ls.length < 2 then false
    else
      match b with
      | .point _ => false
      | .multiPoint _ => false
      | .lineString ls2 => lineStringWithinLineString ls ls2
      | .multiLineString mls => lineStringWithinMultiLineString ls mls
      | .ring r => lineStringWithinRing ls r
      | .polygon poly => lineStringWithinPolygon ls poly
      | .multiPolygon mp =>
        (mp.any fun poly => lineStringWithinPolygon ls poly) ||
        lineStringWithinMultiPolygon ls mp
      | .collection gs => gs.any fun g => withinLineStringF fuel ls g
      | .bound bd => lineStringWithinBound ls bd

/-- within.go withinLineString. -/
def withinLineString (ls : List Pt) (b : Geometry) : Bool :=
  withinLineStringF (gdepth b + 1) ls b

/-- within.go withinMultiLineString. -/
def withinMultiLineString (mls : List (List Pt)) (b : Geometry) : Bool :=
  if mls.isEmpty then false
  else mls.all fun ls => withinLineString ls b

/-- within.go ringCentroid: the vertex average. -/
def ringCentroid (r : List Pt) : Pt :=
  match r with
  | [] => ⟨⟨0, 1⟩, ⟨0, 1⟩⟩
  | _ =>
    let sx := r.foldl (fun s p => qAdd s p.x) ⟨0, 1⟩
    let sy := r.foldl (fun s p => qAdd s p.y) ⟨0, 1⟩
    ⟨qDiv sx (qi (Int.ofNat r.length)), qDiv sy (qi (Int.ofNat r.length))⟩

/-- within.go ringWithinRing: closure membership of every vertex, no
interior edge crossing over any edge pair, and an interior witness
(vertex or centroid). -/
def ringWithinRing (r1 r2 : List Pt) : Bool :=
  (r1.all fun p => ringContains r2 p || pointOnRingBoundary p r2) &&
  ((edges r1).all fun e1 => (edges r2).all fun e2 =>
    !segmentsIntersectInterior e1.1 e1.2 e2.1 e2.2) &&
  ((r1.any fun p => pointInRingInterior p r2) ||
   pointInRingInterior (ringCentroid r1) r2)

/-- within.go ringWithinPolygon. -/
def ringWithinPolygon (r : List Pt) (poly : List (List Pt)) : Bool :=
  match poly with
  | [] => false
  | _ =>
    (r.all fun p => polygonContains poly p || pointOnPolygonBoundary p poly) &&
    ((edges r).all fun e1 => poly.all fun polyRing => (edges polyRing).all fun e2 =>
      !segmentsIntersectInterior e1.1 e1.2 e2.1 e2.2) &&
    pointInPolygonInterior (ringCentroid r) poly

/-- within.go ringWithinBound. -/
def ringWithinBound (r : List Pt) (bd : GBound) : Bool :=
  (r.all fun p => boundContainsPoint bd p) &&
  boundContainsPointInterior bd (ringCentroid r)

/-- within.go withinRing: fuelled form; rings of fewer than four
vertices are rejected. -/
def withinRingF : Nat → List Pt → Geometry → Bool
  | 0, _, _ => false
  | fuel + 1, r, b =>
    if r.length < 4 then false
    else
      match b with
      | .point _ => false
      | .multiPoint _ => false
      | .lineString _ => false
      | .multiLineString _ => false
      | .ring r2 => ringWithinRing r r2
      | .polygon poly => ringWithinPolygon r poly
      | .multiPolygon mp => mp.any fun poly => ringWithinPolygon r poly
      | .collection gs => gs.any fun g => withinRingF fuel r g
      | .bound bd => ringWithinBound r bd

/-- within.go withinRing. -/
def withinRing (r : List Pt) (b : Geometry) : Bool :=
  withinRingF (gdepth b + 1) r b

/-- within.go polygonsTopologicallyEqual. -/
def polygonsTopologicallyEqual (p1 p2 : List (List Pt)) : Bool :=
  match p1, p2 with
  | [], _ => false
  | _, [] => false
  | e1 :: _, e2 :: _ =>
    (e1.all fun p => pointOnRingBoundary p e2) &&
    (e2.all fun p => pointOnRingBoundary p e1) &&
    (p1.length == p2.length)

/-- within.go polygonWithinPolygon: topological equality short-cut,
exterior closure membership, hole exclusion, no interior edge
crossings, and an interior witness. -/
def polygonWithinPolygon (p1 p2 : List (List Pt)) : Bool :=
  match p1, p2 with
  | [], _ => false
  | _, [] => false
  | e1 :: _, _ :: holes =>
    polygonsTopologicallyEqual p1 p2 ||
    ((e1.all fun p => polygonContains p2 p || pointOnPolygonBoundary p p2) &&
     (holes.all fun hole =>
       let c := ringCentroid e1
       !(ringContains hole c && !pointOnRingBoundary c hole) &&
       (e1.all fun p => !(ringContains hole p && !pointOnRingBoundary p hole)) &&
       ((edges e1).all fun e =>
         let mid := midpoint e.1 e.2
         !(ringContains hole mid && !pointOnRingBoundary mid hole)) &&
       !(ringsIntersect e1 hole && ringContains e1 (ringCentroid hole))) &&
     (p1.all fun r1 => (edges r1).all fun s1 =>
       p2.all fun r2 => (edges r2).all fun s2 =>
         !segmentsIntersectInterior s1.1 s1.2 s2.1 s2.2) &&
     (pointInPolygonInterior (ringCentroid e1) p2 ||
      (e1.any fun p => pointInPolygonInterior p p2) ||
      ((edges e1).any fun e => pointInPolygonInterior (midpoint e.1 e.2) p2)))

/-- within.go polygonWithinBound. -/
def polygonWithinBound (poly : List (List Pt)) (bd : GBound) : Bool :=
  match poly with
  | [] => false
  | e1 :: _ =>
    (poly.all fun ring => ring.all fun p => boundContainsPoint bd p) &&
    boundContainsPointInterior bd (ringCentroid e1)

/-- within.go withinPolygon: fuelled form; empty or short exteriors
are rejected. -/
def withinPolygonF : Nat → List (List Pt) → Geometry → Bool
  | 0, _, _ => false
  | fuel + 1, poly, b =>
    match poly with
    | [] => false
    | e1 :: _ =>
      if e1.length < 4 then false
      else
        match b with
        | .point _ => false
        | .multiPoint _ => false
        | .lineString _ => false
        | .multiLineString _ => false
        | .ring r2 => ringWithinRing e1 r2
        | .polygon p2 => polygonWithinPolygon poly p2
        | .multiPolygon mp => mp.any fun p2 => polygonWithinPolygon poly p2
        | .collection gs => gs.any fun g => withinPolygonF fuel poly g
        | .bound bd => polygonWithinBound poly bd

/-- within.go withinPolygon. -/
def withinPolygon (poly : List (List Pt)) (b : Geometry) : Bool :=
  withinPolygonF (gdepth b + 1) poly b

/-- within.go withinMultiPolygon. -/
def withinMultiPolygon (mp : List (List (List Pt))) (b : Geometry) : Bool :=
  if mp.isEmpty then false
  else mp.all fun poly => withinPolygon poly b

/-- within.go Within: fuelled form.  The entry point rejects empty
operands and operands whose bound leaks outside the bound of the
second geometry, then dispatches on the variant of the first;
withinCollection requires every member to be within the second
geometry. -/
def WithinF : Nat → Geometry → Geometry → Bool
  | 0, _, _ => false
  | fuel + 1, a, b =>
    if isEmpty a || isEmpty b then false
    else
      let ba := geomBound a
      let bb := geomBound b
      if qLt ba.min.x (qSub bb.min.x epsilon) || qLt (qAdd bb.max.x epsilon) ba.max.x ||
         qLt ba.min.y (qSub bb.min.y epsilon) || qLt (qAdd bb.max.y epsilon) ba.max.y then
        false
      else
        match a with
        | .point p => withinPoint p b
        | .multiPoint mp => withinMultiPoint mp b
        | .lineString ls => withinLineString ls b
        | .multiLineString mls => withinMultiLineString mls b
        | .ring r => withinRing r b
        | .polygon poly => withinPolygon poly b
        | .multiPolygon mp => withinMultiPolygon mp b
        | .collection gs =>
          if gs.isEmpty then false else gs.all fun g => WithinF fuel g b
        | .bound bd => withinPolygon (boundToPolygon bd) b

/-- within.go Within. -/
def Within (a b : Geometry) : Bool :=
  WithinF (gdepth a + 1) a b

/-- within.go Contains. -/
def Contains (a b : Geometry) : Bool :=
  Within b a

/-! Covers and CoveredBy, from src/covers.go. -/

/-- covers.go coversPoint. -/
def coversPoint (p : Pt) (b : Geometry) : Bool :=
  match b with
  | .point q => pointsEqual p q
  | .multiPoint ps => ps.all fun q => pointsEqual p q
  | _ => false

/-- covers.go coversMultiPoint. -/
def coversMultiPoint (mp : List Pt) (b : Geometry) : Bool :=
  match b with
  | .point q => mp.any fun p => pointsEqual p q
  | .multiPoint ps => ps.all fun p => mp.any fun q => pointsEqual p q
  | _ => false

/-- covers.go lineStringCoversLineString. -/
def lineStringCoversLineString (ls1 ls2 : List Pt) : Bool :=
  (ls2.all fun p => pointIntersectsLineString p ls1) &&
  ((edges ls2).all fun e => pointIntersectsLineString (midpoint e.1 e.2) ls1)

/-- covers.go coversLineString. -/
def coversLineString (ls : List Pt) (b : Geometry) : Bool :=
  match b with
  | .point q => pointIntersectsLineString q ls
  | .multiPoint ps => ps.all fun p => pointIntersectsLineString p ls
  | .lineString ls2 => lineStringCoversLineString ls ls2
  | .multiLineString mls => mls.all fun ls2 => lineStringCoversLineString ls ls2
  | _ => false

/-- covers.go multiLineStringCoversLineString. -/
def multiLineStringCoversLineString (mls : List (List Pt)) (ls : List Pt) : Bool :=
  (ls.all fun p => mls.any fun ls2 => pointIntersectsLineString p ls2) &&
  ((edges ls).all fun e =>
    mls.any fun ls2 => pointIntersectsLineString (midpoint e.1 e.2) ls2)

/-- covers.go coversMultiLineString. -/
def coversMultiLineString (mls : List (List Pt)) (b : Geometry) : Bool :=
  match b with
  | .point q => mls.any fun ls => pointIntersectsLineString q ls
  | .multiPoint ps => ps.all fun p => mls.any fun ls => pointIntersectsLineString p ls
  | .lineString ls => multiLineStringCoversLineString mls ls
  | .multiLineString mls2 => mls2.all fun ls => multiLineStringCoversLineString mls ls
  | _ => false

/-- covers.go ringCoversLineString. -/
def ringCoversLineString (r ls : List Pt) : Bool :=
  (ls.all fun p => ringContains r p || pointOnRingBoundary p r) &&
  ((edges ls).all fun e =>
    let mid := midpoint e.1 e.2
    ringContains r mid || pointOnRingBoundary mid r)

/-- covers.go ringCoversRing: all vertices and all edge midpoints of
the second ring lie in the closure of the first. -/
def ringCoversRing (r1 r2 : List Pt) : Bool :=
  (r2.all fun p => ringContains r1 p || pointOnRingBoundary p r1) &&
  ((edges r2).all fun e =>
    let mid := midpoint e.1 e.2
    ringContains r1 mid || pointOnRingBoundary mid r1)

/-- covers.go ringCoversPolygon: only the exterior ring of the polygon
is consulted, and only its vertices. -/
def ringCoversPolygon (r : List Pt) (poly : List (List Pt)) : Bool :=
  match poly with
  | [] => true
  | ext :: _ => ext.all fun p => ringContains r p || pointOnRingBoundary p r

/-- covers.go ringCoversBound. -/
def ringCoversBound (r : List Pt) (bd : GBound) : Bool :=
  [(⟨bd.min.x, bd.min.y⟩ : Pt), ⟨bd.max.x, bd.min.y⟩,
   ⟨bd.max.x, bd.max.y⟩, ⟨bd.min.x, bd.max.y⟩].all fun c =>
    ringContains r c || pointOnRingBoundary c r

/-- covers.go coversRing: fuelled form. -/
def coversRingF : Nat → List Pt → Geometry → Bool
  | 0, _, _ => false
  | fuel + 1, r, b =>
    match b with
    | .point q => ringContains r q || pointOnRingBoundary q r
    | .multiPoint ps => ps.all fun p => ringContains r p || pointOnRingBoundary p r
    | .lineString ls => ringCoversLineString r ls
    | .multiLineString mls => mls.all fun ls => ringCoversLineString r ls
    | .ring r2 => ringCoversRing r r2
    | .polygon poly => ringCoversPolygon r poly
    | .multiPolygon mp => mp.all fun poly => ringCoversPolygon r poly
    | .collection gs => gs.all fun g => coversRingF fuel r g
    | .bound bd => ringCoversBound r bd

/-- covers.go coversRing. -/
def coversRing (r : List Pt) (b : Geometry) : Bool :=
  coversRingF (gdepth b + 1) r b

/-- covers.go polygonCoversLineString. -/
def polygonCoversLineString (poly : List (List Pt)) (ls : List Pt) : Bool :=
  (ls.all fun p => polygonContains poly p || pointOnPolygonBoundary p poly) &&
  ((edges ls).all fun e =>
    let mid := midpoint e.1 e.2
    polygonContains poly mid || pointOnPolygonBoundary mid poly)

/-- covers.go polygonCoversRing. -/
def polygonCoversRing (poly : List (List Pt)) (r : List Pt) : Bool :=
  (r.all fun p => polygonContains poly p || pointOnPolygonBoundary p poly) &&
  ((edges r).all fun e =>
    let mid := midpoint e.1 e.2
    polygonContains poly mid || pointOnPolygonBoundary mid poly)

/-- covers.go polygonCoversPolygon: only the exterior ring of the
covered polygon is consulted (vertices and edge midpoints). -/
def polygonCoversPolygon (poly1 poly2 : List (List Pt)) : Bool :=
  match poly2 with
  | [] => true
  | ext :: _ =>
    (ext.all fun p => polygonContains poly1 p || pointOnPolygonBoundary p poly1) &&
    ((edges ext).all fun e =>
      let mid := midpoint e.1 e.2
      polygonContains poly1 mid || pointOnPolygonBoundary mid poly1)

/-- covers.go polygonCoversBound: the four corners and the four edge
midpoints of the rectangle. -/
def polygonCoversBound (poly : List (List Pt)) (bd : GBound) : Bool :=
  ([(⟨bd.min.x, bd.min.y⟩ : Pt), ⟨bd.max.x, bd.min.y⟩,
    ⟨bd.max.x, bd.max.y⟩, ⟨bd.min.x, bd.max.y⟩].all fun c =>
     polygonContains poly c || pointOnPolygonBoundary c poly) &&
  ([(⟨qDiv (qAdd bd.min.x bd.max.x) (qi 2), bd.min.y⟩ : Pt),
    ⟨bd.max.x, qDiv (qAdd bd.min.y bd.max.y) (qi 2)⟩,
    ⟨qDiv (qAdd bd.min.x bd.max.x) (qi 2), bd.max.y⟩,
    ⟨bd.min.x, qDiv (qAdd bd.min.y bd.max.y) (qi 2)⟩].all fun e =>
     polygonContains poly e || pointOnPolygonBoundary e poly)

/-- covers.go coversPolygon: fuelled form. -/
def coversPolygonF : Nat → List (List Pt) → Geometry → Bool
  | 0, _, _ => false
  | fuel + 1, poly, b =>
    match b with
    | .point q => polygonContains poly q || pointOnPolygonBoundary q poly
    | .multiPoint ps =>
      ps.all fun p => polygonContains poly p || pointOnPolygonBoundary p poly
    | .lineString ls => polygonCoversLineString poly ls
    | .multiLineString mls => mls.all fun ls => polygonCoversLineString poly ls
    | .ring r => polygonCoversRing poly r
    | .polygon poly2 => polygonCoversPolygon poly poly2
    | .multiPolygon mp => mp.all fun poly2 => polygonCoversPolygon poly poly2
    | .collection gs => gs.all fun g => coversPolygonF fuel poly g
    | .bound bd => polygonCoversBound poly bd

/-- covers.go coversPolygon. -/
def coversPolygon (poly : List (List Pt)) (b : Geometry) : Bool :=
  coversPolygonF (gdepth b + 1) poly b

/-- covers.go multiPolygonCoversLineString. -/
def multiPolygonCoversLineString (mp : List (List (List Pt))) (ls : List Pt) : Bool :=
  (ls.all fun p =>
    mp.any fun poly => polygonContains poly p || pointOnPolygonBoundary p poly) &&
  ((edges ls).all fun e =>
    let mid := midpoint e.1 e.2
    mp.any fun poly => polygonContains poly mid || pointOnPolygonBoundary mid poly)

/-- covers.go multiPolygonCoversRing. -/
def multiPolygonCoversRing (mp : List (List (List Pt))) (r : List Pt) : Bool :=
  (r.all fun p =>
    mp.any fun poly => polygonContains poly p || pointOnPolygonBoundary p poly) &&
  ((edges r).all fun e =>
    let mid := midpoint e.1 e.2
    mp.any fun poly => polygonContains poly mid || pointOnPolygonBoundary mid poly)

/-- covers.go multiPolygonCoversPolygon: a single covering member, or
point-by-point coverage of the exterior ring of the covered polygon. -/
def multiPolygonCoversPolygon (mp : List (List (List Pt))) (poly : List (List Pt)) : Bool :=
  match poly with
  | [] => true
  | ext :: _ =>
    (mp.any fun p => polygonCoversPolygon p poly) ||
    ((ext.all fun pt =>
       mp.any fun p => polygonContains p pt || pointOnPolygonBoundary pt p) &&
     ((edges ext).all fun e =>
       let mid := midpoint e.1 e.2
       mp.any fun p => polygonContains p mid || pointOnPolygonBoundary mid p))

/-- covers.go multiPolygonCoversBound. -/
def multiPolygonCoversBound (mp : List (List (List Pt))) (bd : GBound) : Bool :=
  multiPolygonCoversPolygon mp (boundToPolygon bd)

/-- covers.go coversMultiPolygon: fuelled form. -/
def coversMultiPolygonF : Nat → List (List (List Pt)) → Geometry → Bool
  | 0, _, _ => false
  | fuel + 1, mp, b =>
    match b with
    | .point q =>
      mp.any fun poly => polygonContains poly q || pointOnPolygonBoundary q poly
    | .multiPoint ps =>
      ps.all fun p =>
        mp.any fun poly => polygonContains poly p || pointOnPolygonBoundary p poly
    | .lineString ls => multiPolygonCoversLineString mp ls
    | .multiLineString mls => mls.all fun ls => multiPolygonCoversLineString mp ls
    | .ring r => multiPolygonCoversRing mp r
    | .polygon poly => multiPolygonCoversPolygon mp poly
    | .multiPolygon mp2 => mp2.all fun poly => multiPolygonCoversPolygon mp poly
    | .collection gs => gs.all fun g => coversMultiPolygonF fuel mp g
    | .bound bd => multiPolygonCoversBound mp bd

/-- covers.go coversMultiPolygon. -/
def coversMultiPolygon (mp : List (List (List Pt))) (b : Geometry) : Bool :=
  coversMultiPolygonF (gdepth b + 1) mp b

/-- covers.go coversBound: fuelled form.  A bound covers a geometry
when every vertex of every part lies in the closed rectangle; note
that for a polygon this walks every ring, holes included. -/
def coversBoundF : Nat → GBound → Geometry → Bool
  | 0, _, _ => false
  | fuel + 1, bd, b =>
    match b with
    | .point q => boundContainsPoint bd q
    | .multiPoint ps => ps.all fun p => boundContainsPoint bd p
    | .lineString ls => ls.all fun p => boundContainsPoint bd p
    | .multiLineString mls => mls.all fun ls => ls.all fun p => boundContainsPoint bd p
    | .ring r => r.all fun p => boundContainsPoint bd p
    | .polygon poly => poly.all fun ring => ring.all fun p => boundContainsPoint bd p
    | .multiPolygon mp =>
      mp.all fun poly => poly.all fun ring => ring.all fun p => boundContainsPoint bd p
    | .collection gs => gs.all fun g => coversBoundF fuel bd g
    | .bound b2 =>
      qLe bd.min.x (qAdd b2.min.x epsilon) && qLe bd.min.y (qAdd b2.min.y epsilon) &&
      qLe (qSub b2.max.x epsilon) bd.max.x && qLe (qSub b2.max.y epsilon) bd.max.y

/-- covers.go coversBound. -/
def coversBound (bd : GBound) (b : Geometry) : Bool :=
  coversBoundF (gdepth b + 1) bd b

/-- covers.go Covers: fuelled form.  The entry point rejects empty
operands and a second operand whose bound leaks outside the bound of
the first, then dispatches; coversCollection asks for a single member
covering the operand, except for points and multipoints which may be
covered pointwise by different members. -/
def CoversF : Nat → Geometry → Geometry → Bool
  | 0, _, _ => false
  | fuel + 1, a, b =>
    if isEmpty a || isEmpty b then false
    else
      let ba := geomBound a
      let bb := geomBound b
      if qLt bb.min.x (qSub ba.min.x epsilon) || qLt (qAdd ba.max.x epsilon) bb.max.x ||
         qLt bb.min.y (qSub ba.min.y epsilon) || qLt (qAdd ba.max.y epsilon) bb.max.y then
        false
      else
        match a with
        | .point p => coversPoint p b
        | .multiPoint mp => coversMultiPoint mp b
        | .lineString ls => coversLineString ls b
        | .multiLineString mls => coversMultiLineString mls b
        | .ring r => coversRing r b
        | .polygon poly => coversPolygon poly b
        | .multiPolygon mp => coversMultiPolygon mp b
        | .collection gs =>
          match b with
          | .point _ => gs.any fun g => CoversF fuel g b
          | .multiPoint ps =>
            ps.all fun p => gs.any fun g => CoversF fuel g (.point p)
          | _ => gs.any fun g => CoversF fuel g b
        | .bound bd => coversBound bd b

/-- covers.go Covers. -/
def Covers (a b : Geometry) : Bool :=
  CoversF (gdepth a + gdepth b + 1) a b

/-- covers.go CoveredBy. -/
def CoveredBy (a b : Geometry) : Bool :=
  Covers b a

/-! The interior-intersection kernel and Touches, from
src/unnamed/part_002. -/

/-- part_002 lineStringInteriorsIntersect: proper or collinear-overlap
segment contact, internal vertices of either line in the interior of
the other, or a segment midpoint of the first line in the interior of
the second (midpoints of the second line are not probed). -/
def lineStringInteriorsIntersect (ls1 ls2 : List Pt) : Bool :=
  ((edges ls1).any fun e1 => (edges ls2).any fun e2 =>
    segmentsIntersectInterior e1.1 e1.2 e2.1 e2.2) ||
  ((innerVertices ls1).any fun v => pointInLineStringInterior v ls2) ||
  ((innerVertices ls2).any fun v => pointInLineStringInterior v ls1) ||
  ((edges ls1).any fun e => pointInLineStringInterior (midpoint e.1 e.2) ls2)

/-- part_002 lineStringInteriorIntersectsRingInterior. -/
def lineStringInteriorIntersectsRingInterior (ls r : List Pt) : Bool :=
  ((innerVertices ls).any fun v => pointInRingInterior v r) ||
  ((edges ls).any fun e => pointInRingInterior (midpoint e.1 e.2) r)

/-- part_002 lineStringInteriorIntersectsPolygonInterior: an endpoint
strictly inside implies the adjacent line interior is inside too. -/
def lineStringInteriorIntersectsPolygonInterior (ls : List Pt) (poly : List (List Pt)) : Bool :=
  match ls with
  | [] => false
  | [_] => false
  | p :: rest =>
    pointInPolygonInterior p poly ||
    pointInPolygonInterior ((p :: rest).getLastD p) poly ||
    ((innerVertices (p :: rest)).any fun v => pointInPolygonInterior v poly) ||
    ((edges (p :: rest)).any fun e => pointInPolygonInterior (midpoint e.1 e.2) poly)

/-- part_002 lineStringInteriorIntersectsBoundInterior. -/
def lineStringInteriorIntersectsBoundInterior (ls : List Pt) (bd : GBound) : Bool :=
  match ls with
  | [] => false
  | [_] => false
  | p :: rest =>
    boundContainsPointInterior bd p ||
    boundContainsPointInterior bd ((p :: rest).getLastD p) ||
    ((innerVertices (p :: rest)).any fun v => boundContainsPointInterior bd v) ||
    ((edges (p :: rest)).any fun e => boundContainsPointInterior bd (midpoint e.1 e.2))

/-- part_002 pointInteriorIntersects: fuelled form. -/
def pointInteriorIntersectsF : Nat → Pt → Geometry → Bool
  | 0, _, _ => false
  | fuel + 1, p, b =>
    match b with
    | .point q => pointsEqual p q
    | .multiPoint ps => ps.any fun q => pointsEqual p q
    | .lineString ls => pointInLineStringInterior p ls
    | .multiLineString mls => mls.any fun ls => pointInLineStringInterior p ls
    | .ring r => pointInRingInterior p r
    | .polygon poly => pointInPolygonInterior p poly
    | .multiPolygon mp => mp.any fun poly => pointInPolygonInterior p poly
    | .collection gs => gs.any fun g => pointInteriorIntersectsF fuel p g
    | .bound bd => boundContainsPointInterior bd p

/-- part_002 pointInteriorIntersects. -/
def pointInteriorIntersects (p : Pt) (b : Geometry) : Bool :=
  pointInteriorIntersectsF (gdepth b + 1) p b

/-- part_002 multiPointInteriorIntersects. -/
def multiPointInteriorIntersects (mp : List Pt) (b : Geometry) : Bool :=
  mp.any fun p => pointInteriorIntersects p b

/-- part_002 lineStringInteriorIntersects: fuelled form. -/
def lineStringInteriorIntersectsF : Nat → List Pt → Geometry → Bool
  | 0, _, _ => false
  | fuel + 1, ls, b =>
    if ls.length < 2 then false
    else
      match b with
      | .point q => pointInLineStringInterior q ls
      | .multiPoint ps => ps.any fun p => pointInLineStringInterior p ls
      | .lineString ls2 => lineStringInteriorsIntersect ls ls2
      | .multiLineString mls => mls.any fun ls2 => lineStringInteriorsIntersect ls ls2
      | .ring r => lineStringInteriorIntersectsRingInterior ls r
      | .polygon poly => lineStringInteriorIntersectsPolygonInterior ls poly
      | .multiPolygon mp =>
        mp.any fun poly => lineStringInteriorIntersectsPolygonInterior ls poly
      | .collection gs => gs.any fun g => lineStringInteriorIntersectsF fuel ls g
      | .bound bd => lineStringInteriorIntersectsBoundInterior ls bd

/-- part_002 lineStringInteriorIntersects. -/
def lineStringInteriorIntersects (ls : List Pt) (b : Geometry) : Bool :=
  lineStringInteriorIntersectsF (gdepth b + 1) ls b

/-- part_002 multiLineStringInteriorIntersects. -/
def multiLineStringInteriorIntersects (mls : List (List Pt)) (b : Geometry) : Bool :=
  mls.any fun ls => lineStringInteriorIntersects ls b

/-- part_002 getOverlapMidpoint: midpoint of the 1D overlap of two
collinear segments, mapped back onto the first segment's line. -/
def getOverlapMidpoint (p1 p2 p3 p4 : Pt) : Pt :=
  let horizontal := qLt (qAbs (qSub p2.y p1.y)) (qAbs (qSub p2.x p1.x))
  let getVal := fun (p : Pt) => if horizontal then p.x else p.y
  let v1 := qMin (getVal p1) (getVal p2)
  let v2 := qMax (getVal p1) (getVal p2)
  let v3 := qMin (getVal p3) (getVal p4)
  let v4 := qMax (getVal p3) (getVal p4)
  let midVal := qDiv (qAdd (qMax v1 v3) (qMin v2 v4)) (qi 2)
  let dx := qSub p2.x p1.x
  let dy := qSub p2.y p1.y
  if horizontal then
    if qEq dx ⟨0, 1⟩ then p1
    else
      let t := qDiv (qSub midVal p1.x) dx
      ⟨qAdd p1.x (qMul t dx), qAdd p1.y (qMul t dy)⟩
  else
    if qEq dy ⟨0, 1⟩ then p1
    else
      let t := qDiv (qSub midVal p1.y) dy
      ⟨qAdd p1.x (qMul t dx), qAdd p1.y (qMul t dy)⟩

/-- part_002 polygonInteriorsIntersect: proper boundary crossings, a
vertex of one polygon strictly inside the other, or a perpendicular
probe at the midpoint of a collinear boundary overlap that lands
strictly inside both. -/
def polygonInteriorsIntersect (p1 p2 : List (List Pt)) : Bool :=
  match p1, p2 with
  | [], _ => false
  | _, [] => false
  | _, _ =>
    (p1.any fun r1 => p2.any fun r2 =>
      (edges r1).any fun e1 => (edges r2).any fun e2 =>
        segmentsCrossProper e1.1 e1.2 e2.1 e2.2) ||
    (p1.any fun ring => ring.any fun p => pointInPolygonInterior p p2) ||
    (p2.any fun ring => ring.any fun p => pointInPolygonInterior p p1) ||
    (p1.any fun r1 => p2.any fun r2 =>
      (edges r1).any fun e1 => (edges r2).any fun e2 =>
        if segmentsAreCollinear e1.1 e1.2 e2.1 e2.2 &&
           segmentsOverlapInterior e1.1 e1.2 e2.1 e2.2 then
          let mid := getOverlapMidpoint e1.1 e1.2 e2.1 e2.2
          let dx := qSub e1.2.x e1.1.x
          let dy := qSub e1.2.y e1.1.y
          let len := qSqrt (qAdd (qMul dx dx) (qMul dy dy))
          if qEq len ⟨0, 1⟩ then false
          else
            let nx := qDiv (qNeg dy) len
            let ny := qDiv dx len
            let probe1 : Pt :=
              ⟨qAdd mid.x (qMul nx ⟨1, 100000⟩), qAdd mid.y (qMul ny ⟨1, 100000⟩)⟩
            let probe2 : Pt :=
              ⟨qSub mid.x (qMul nx ⟨1, 100000⟩), qSub mid.y (qMul ny ⟨1, 100000⟩)⟩
            (pointInPolygonInterior probe1 p1 && pointInPolygonInterior probe1 p2) ||
            (pointInPolygonInterior probe2 p1 && pointInPolygonInterior probe2 p2)
        else false)

/-- part_002 ringInteriorsIntersect: delegated to the polygon case. -/
def ringInteriorsIntersect (r1 r2 : List Pt) : Bool :=
  polygonInteriorsIntersect [r1] [r2]

/-- part_002 ringInteriorIntersectsPolygonInterior: decided by the two
centroid probes only. -/
def ringInteriorIntersectsPolygonInterior (r : List Pt) (poly : List (List Pt)) : Bool :=
  match poly with
  | [] => false
  | ext :: _ =>
    (pointInRingInterior (ringCentroid r) r &&
     pointInPolygonInterior (ringCentroid r) poly) ||
    (pointInPolygonInterior (ringCentroid ext) poly &&
     pointInRingInterior (ringCentroid ext) r)

/-- part_002 ringInteriorIntersectsBoundInterior. -/
def ringInteriorIntersectsBoundInterior (r : List Pt) (bd : GBound) : Bool :=
  (pointInRingInterior (ringCentroid r) r &&
   boundContainsPointInterior bd (ringCentroid r)) ||
  pointInRingInterior
    ⟨qDiv (qAdd bd.min.x bd.max.x) (qi 2), qDiv (qAdd bd.min.y bd.max.y) (qi 2)⟩ r

/-- part_002 ringInteriorIntersects: fuelled form. -/
def ringInteriorIntersectsF : Nat → List Pt → Geometry → Bool
  | 0, _, _ => false
  | fuel + 1, r, b =>
    match b with
    | .point q => pointInRingInterior q r
    | .multiPoint ps => ps.any fun p => pointInRingInterior p r
    | .lineString ls => lineStringInteriorIntersectsRingInterior ls r
    | .multiLineString mls => mls.any fun ls => lineStringInteriorIntersectsRingInterior ls r
    | .ring r2 => ringInteriorsIntersect r r2
    | .polygon poly => ringInteriorIntersectsPolygonInterior r poly
    | .multiPolygon mp => mp.any fun poly => ringInteriorIntersectsPolygonInterior r poly
    | .collection gs => gs.any fun g => ringInteriorIntersectsF fuel r g
    | .bound bd => ringInteriorIntersectsBoundInterior r bd

/-- part_002 ringInteriorIntersects. -/
def ringInteriorIntersects (r : List Pt) (b : Geometry) : Bool :=
  ringInteriorIntersectsF (gdepth b + 1) r b

/-- part_002 polygonInteriorIntersectsBoundInterior. -/
def polygonInteriorIntersectsBoundInterior (poly : List (List Pt)) (bd : GBound) : Bool :=
  match poly with
  | [] => false
  | ext :: _ =>
    (pointInPolygonInterior (ringCentroid ext) poly &&
     boundContainsPointInterior bd (ringCentroid ext)) ||
    pointInPolygonInterior
      ⟨qDiv (qAdd bd.min.x bd.max.x) (qi 2), qDiv (qAdd bd.min.y bd.max.y) (qi 2)⟩ poly

/-- part_002 polygonInteriorIntersects: fuelled form. -/
def polygonInteriorIntersectsF : Nat → List (List Pt) → Geometry → Bool
  | 0, _, _ => false
  | fuel + 1, poly, b =>
    match poly with
    | [] => false
    | _ =>
      match b with
      | .point q => pointInPolygonInterior q poly
      | .multiPoint ps => ps.any fun p => pointInPolygonInterior p poly
      | .lineString ls => lineStringInteriorIntersectsPolygonInterior ls poly
      | .multiLineString mls =>
        mls.any fun ls => lineStringInteriorIntersectsPolygonInterior ls poly
      | .ring r => ringInteriorIntersectsPolygonInterior r poly
      | .polygon p2 => polygonInteriorsIntersect poly p2
      | .multiPolygon mp => mp.any fun p2 => polygonInteriorsIntersect poly p2
      | .collection gs => gs.any fun g => polygonInteriorIntersectsF fuel poly g
      | .bound bd => polygonInteriorIntersectsBoundInterior poly bd

/-- part_002 polygonInteriorIntersects. -/
def polygonInteriorIntersects (poly : List (List Pt)) (b : Geometry) : Bool :=
  polygonInteriorIntersectsF (gdepth b + 1) poly b

/-- part_002 multiPolygonInteriorIntersects. -/
def multiPolygonInteriorIntersects (mp : List (List (List Pt))) (b : Geometry) : Bool :=
  mp.any fun poly => polygonInteriorIntersects poly b

/-- part_002 boundsInteriorsIntersect. -/
def boundsInteriorsIntersect (b1 b2 : GBound) : Bool :=
  qLt epsilon (qSub (qMin b1.max.x b2.max.x) (qMax b1.min.x b2.min.x)) &&
  qLt epsilon (qSub (qMin b1.max.y b2.max.y) (qMax b1.min.y b2.min.y))

/-- part_002 boundInteriorIntersects: fuelled form. -/
def boundInteriorIntersectsF : Nat → GBound → Geometry → Bool
  | 0, _, _ => false
  | fuel + 1, bd, b =>
    match b with
    | .point q => boundContainsPointInterior bd q
    | .multiPoint ps => ps.any fun p => boundContainsPointInterior bd p
    | .lineString ls => lineStringInteriorIntersectsBoundInterior ls bd
    | .multiLineString mls =>
      mls.any fun ls => lineStringInteriorIntersectsBoundInterior ls bd
    | .ring r => ringInteriorIntersectsBoundInterior r bd
    | .polygon poly => polygonInteriorIntersectsBoundInterior poly bd
    | .multiPolygon mp => mp.any fun poly => polygonInteriorIntersectsBoundInterior poly bd
    | .collection gs => gs.any fun g => boundInteriorIntersectsF fuel bd g
    | .bound b2 => boundsInteriorsIntersect bd b2

/-- part_002 boundInteriorIntersects. -/
def boundInteriorIntersects (bd : GBound) (b : Geometry) : Bool :=
  boundInteriorIntersectsF (gdepth b + 1) bd b

/-- part_002 interiorsIntersect: fuelled form of the symmetric
interior-intersection kernel. -/
def interiorsIntersectF : Nat → Geometry → Geometry → Bool
  | 0, _, _ => false
  | fuel + 1, a, b =>
    match a with
    | .point p => pointInteriorIntersects p b
    | .multiPoint mp => multiPointInteriorIntersects mp b
    | .lineString ls => lineStringInteriorIntersects ls b
    | .multiLineString mls => multiLineStringInteriorIntersects mls b
    | .ring r => ringInteriorIntersects r b
    | .polygon poly => polygonInteriorIntersects poly b
    | .multiPolygon mp => multiPolygonInteriorIntersects mp b
    | .collection gs => gs.any fun g => interiorsIntersectF fuel g b
    | .bound bd => boundInteriorIntersects bd b

/-- part_002 interiorsIntersect. -/
def interiorsIntersect (a b : Geometry) : Bool :=
  interiorsIntersectF (gdepth a + 1) a b

/-- part_002 Touches: non-empty intersection with disjoint interiors,
behind empty and bounding-box guards. -/
def Touches (a b : Geometry) : Bool :=
  if isEmpty a || isEmpty b then false
  else if !boundingBoxOverlap a b then false
  else if !Intersects a b then false
  else !interiorsIntersect a b

/-! Overlaps, from src/unnamed/part_003. -/

/-- part_003 multiPointsOverlap: a shared point, a point only in the
first, and a point only in the second. -/
def multiPointsOverlap (mp1 mp2 : List Pt) : Bool :=
  (mp1.any fun p1 => mp2.any fun p2 => pointsEqual p1 p2) &&
  (mp1.any fun p1 => !mp2.any fun p2 => pointsEqual p1 p2) &&
  (mp2.any fun p2 => !mp1.any fun p1 => pointsEqual p1 p2)

/-- part_003 overlapsMultiPoint. -/
def overlapsMultiPoint (mp : List Pt) (b : Geometry) : Bool :=
  match b with
  | .multiPoint ps => multiPointsOverlap mp ps
  | _ => false

/-- part_003 segmentsShareLine: the second segment lies on the line of
the first (only those two sign tests are made) and the overlap has
interior length. -/
def segmentsShareLine (p1 p2 p3 p4 : Pt) : Bool :=
  if sign (cross2D p1 p2 p3) != 0 || sign (cross2D p1 p2 p4) != 0 then false
  else segmentsOverlapInterior p1 p2 p3 p4

/-- part_003 lineStringsOverlap. -/
def lineStringsOverlap (ls1 ls2 : List Pt) : Bool :=
  if ls1.length < 2 || ls2.length < 2 then false
  else
    ((edges ls1).any fun e1 => (edges ls2).any fun e2 =>
      segmentsShareLine e1.1 e1.2 e2.1 e2.2) &&
    !(lineStringCoversLineString ls1 ls2 || lineStringCoversLineString ls2 ls1)

/-- part_003 lineStringOverlapsMultiLineString. -/
def lineStringOverlapsMultiLineString (ls : List Pt) (mls : List (List Pt)) : Bool :=
  (mls.any fun ls2 => lineStringsOverlap ls ls2) &&
  !multiLineStringCoversLineString mls ls &&
  !(mls.all fun ls2 => lineStringCoversLineString ls ls2)

/-- part_003 overlapsLineString. -/
def overlapsLineString (ls : List Pt) (b : Geometry) : Bool :=
  match b with
  | .lineString ls2 => lineStringsOverlap ls ls2
  | .multiLineString mls => lineStringOverlapsMultiLineString ls mls
  | _ => false

/-- part_003 multiLineStringsOverlap. -/
def multiLineStringsOverlap (mls1 mls2 : List (List Pt)) : Bool :=
  (mls1.any fun ls1 => mls2.any fun ls2 => lineStringsOverlap ls1 ls2) &&
  !(mls1.all fun ls => multiLineStringCoversLineString mls2 ls) &&
  !(mls2.all fun ls => multiLineStringCoversLineString mls1 ls)

/-- part_003 overlapsMultiLineString. -/
def overlapsMultiLineString (mls : List (List Pt)) (b : Geometry) : Bool :=
  match b with
  | .lineString ls => lineStringOverlapsMultiLineString ls mls
  | .multiLineString mls2 => multiLineStringsOverlap mls mls2
  | _ => false

/-- part_003 ringsOverlap. -/
def ringsOverlap (r1 r2 : List Pt) : Bool :=
  ringsIntersect r1 r2 &&
  (pointInRingInterior (ringCentroid r1) r2 || r1.any fun p => pointInRingInterior p r2) &&
  (pointInRingInterior (ringCentroid r2) r1 || r2.any fun p => pointInRingInterior p r1) &&
  !(ringCoversRing r1 r2 || ringCoversRing r2 r1)

/-- part_003 ringOverlapsPolygon. -/
def ringOverlapsPolygon (r : List Pt) (poly : List (List Pt)) : Bool :=
  match poly with
  | [] => false
  | ext :: _ =>
    ringIntersectsPolygon r poly &&
    (pointInPolygonInterior (ringCentroid r) poly ||
     r.any fun p => pointInPolygonInterior p poly) &&
    (pointInRingInterior (ringCentroid ext) r ||
     ext.any fun p => pointInRingInterior p r) &&
    !(ringCoversRing r ext || polygonCoversRing poly r)

/-- part_003 ringOverlapsMultiPolygon. -/
def ringOverlapsMultiPolygon (r : List Pt) (mp : List (List (List Pt))) : Bool :=
  mp.any fun poly => ringOverlapsPolygon r poly

/-- part_003 ringOverlapsBound. -/
def ringOverlapsBound (r : List Pt) (bd : GBound) : Bool :=
  ringOverlapsPolygon r (boundToPolygon bd)

/-- part_003 overlapsRing. -/
def overlapsRing (r : List Pt) (b : Geometry) : Bool :=
  match b with
  | .ring r2 => ringsOverlap r r2
  | .polygon poly => ringOverlapsPolygon r poly
  | .multiPolygon mp => ringOverlapsMultiPolygon r mp
  | .bound bd => ringOverlapsBound r bd
  | _ => false

/-- part_003 polygonsOverlap. -/
def polygonsOverlap (p1 p2 : List (List Pt)) : Bool :=
  match p1, p2 with
  | [], _ => false
  | _, [] => false
  | e1 :: _, e2 :: _ =>
    polygonsIntersect p1 p2 &&
    (pointInPolygonInterior (ringCentroid e1) p2 ||
     e1.any fun p => pointInPolygonInterior p p2) &&
    (pointInPolygonInterior (ringCentroid e2) p1 ||
     e2.any fun p => pointInPolygonInterior p p1) &&
    !(polygonCoversPolygon p1 p2 || polygonCoversPolygon p2 p1)

/-- part_003 polygonOverlapsMultiPolygon. -/
def polygonOverlapsMultiPolygon (poly : List (List Pt)) (mp : List (List (List Pt))) : Bool :=
  mp.any fun poly2 => polygonsOverlap poly poly2

/-- part_003 overlapsPolygon. -/
def overlapsPolygon (poly : List (List Pt)) (b : Geometry) : Bool :=
  match b with
  | .ring r => ringOverlapsPolygon r poly
  | .polygon p2 => polygonsOverlap poly p2
  | .multiPolygon mp => polygonOverlapsMultiPolygon poly mp
  | .bound bd => polygonsOverlap poly (boundToPolygon bd)
  | _ => false

/-- part_003 multiPolygonsOverlap. -/
def multiPolygonsOverlap (mp1 mp2 : List (List (List Pt))) : Bool :=
  mp1.any fun poly1 => mp2.any fun poly2 => polygonsOverlap poly1 poly2

/-- part_003 overlapsMultiPolygon. -/
def overlapsMultiPolygon (mp : List (List (List Pt))) (b : Geometry) : Bool :=
  match b with
  | .ring r => ringOverlapsMultiPolygon r mp
  | .polygon poly => polygonOverlapsMultiPolygon poly mp
  | .multiPolygon mp2 => multiPolygonsOverlap mp mp2
  | .bound bd => polygonOverlapsMultiPolygon (boundToPolygon bd) mp
  | _ => false

/-- part_003 overlapsBound. -/
def overlapsBound (bd : GBound) (b : Geometry) : Bool :=
  overlapsPolygon (boundToPolygon bd) b

/-- part_003 Overlaps: fuelled form.  Requires equal dimensions after
the empty and bounding-box guards. -/
def OverlapsF : Nat → Geometry → Geometry → Bool
  | 0, _, _ => false
  | fuel + 1, a, b =>
    if isEmpty a || isEmpty b then false
    else if !boundingBoxOverlap a b then false
    else if gdim a != gdim b then false
    else
      match a with
      | .point _ => false
      | .multiPoint mp => overlapsMultiPoint mp b
      | .lineString ls => overlapsLineString ls b
      | .multiLineString mls => overlapsMultiLineString mls b
      | .ring r => overlapsRing r b
      | .polygon poly => overlapsPolygon poly b
      | .multiPolygon mp => overlapsMultiPolygon mp b
      | .collection gs => gs.any fun g => OverlapsF fuel g b
      | .bound bd => overlapsBound bd b

/-- part_003 Overlaps. -/
def Overlaps (a b : Geometry) : Bool :=
  OverlapsF (gdepth a + 1) a b

/-! Crosses: the full dispatcher, whose source appears at the end of
src/README.md (the crosses.go content), plus the stub of
src/predicates.go. -/

/-- README crosses source segmentsOverlap: collinear (all four sign
tests) with interior overlap. -/
def segmentsOverlap (p1 p2 p3 p4 : Pt) : Bool :=
  if sign (cross2D p3 p4 p1) != 0 || sign (cross2D p3 p4 p2) != 0 ||
     sign (cross2D p1 p2 p3) != 0 || sign (cross2D p1 p2 p4) != 0 then false
  else segmentsOverlapInterior p1 p2 p3 p4

/-- README crosses source segmentsCross: proper straddling only. -/
def segmentsCross (p1 p2 p3 p4 : Pt) : Bool :=
  let d1 := sign (cross2D p3 p4 p1)
  let d2 := sign (cross2D p3 p4 p2)
  let d3 := sign (cross2D p1 p2 p3)
  let d4 := sign (cross2D p1 p2 p4)
  ((d1 > 0 && d2 < 0) || (d1 < 0 && d2 > 0)) &&
  ((d3 > 0 && d4 < 0) || (d3 < 0 && d4 > 0))

/-- README crosses source linesHaveSegmentOverlap. -/
def linesHaveSegmentOverlap (ls1 ls2 : List Pt) : Bool :=
  (edges ls1).any fun e1 => (edges ls2).any fun e2 =>
    segmentsOverlap e1.1 e1.2 e2.1 e2.2

/-- README crosses source lineStringCrossesLineString: a proper
segment crossing, with any collinear overlap ruling crossing out. -/
def lineStringCrossesLineString (ls1 ls2 : List Pt) : Bool :=
  if linesHaveSegmentOverlap ls1 ls2 then false
  else
    (edges ls1).any fun e1 => (edges ls2).any fun e2 =>
      segmentsCross e1.1 e1.2 e2.1 e2.2

/-- README crosses source multiPointCrossesLineString. -/
def multiPointCrossesLineString (mp ls : List Pt) : Bool :=
  (mp.any fun p => pointIntersectsLineString p ls) &&
  (mp.any fun p => !pointIntersectsLineString p ls)

/-- README crosses source multiPointCrossesRing. -/
def multiPointCrossesRing (mp r : List Pt) : Bool :=
  (mp.any fun p => ringContains r p || pointOnRingBoundary p r) &&
  (mp.any fun p => !(ringContains r p || pointOnRingBoundary p r))

/-- README crosses source multiPointCrossesPolygon: points on the
boundary count for neither witness. -/
def multiPointCrossesPolygon (mp : List Pt) (poly : List (List Pt)) : Bool :=
  (mp.any fun p => !pointOnPolygonBoundary p poly && polygonContains poly p) &&
  (mp.any fun p => !pointOnPolygonBoundary p poly && !polygonContains poly p)

/-- README crosses source multiPointCrossesMultiPolygon. -/
def multiPointCrossesMultiPolygon (mp : List Pt) (mpoly : List (List (List Pt))) : Bool :=
  (mp.any fun p =>
    mpoly.any fun poly => polygonContains poly p || pointOnPolygonBoundary p poly) &&
  (mp.any fun p =>
    !mpoly.any fun poly => polygonContains poly p || pointOnPolygonBoundary p poly)

/-- README crosses source multiPointCrossesBound. -/
def multiPointCrossesBound (mp : List Pt) (bd : GBound) : Bool :=
  (mp.any fun p => boundContainsPoint bd p) &&
  (mp.any fun p => !boundContainsPoint bd p)

/-- README crosses source crossesMultiPoint (the collection arm asks
full Intersects against each member geometry). -/
def crossesMultiPoint (mp : List Pt) (b : Geometry) : Bool :=
  if mp.length < 2 then false
  else
    match b with
    | .point _ => false
    | .multiPoint _ => false
    | .lineString ls => multiPointCrossesLineString mp ls
    | .multiLineString mls =>
      (mp.any fun p => mls.any fun ls => pointIntersectsLineString p ls) &&
      (mp.any fun p => !mls.any fun ls => pointIntersectsLineString p ls)
    | .ring r => multiPointCrossesRing mp r
    | .polygon poly => multiPointCrossesPolygon mp poly
    | .multiPolygon mpoly => multiPointCrossesMultiPolygon mp mpoly
    | .collection gs =>
      (mp.any fun p => gs.any fun g => Intersects (.point p) g) &&
      (mp.any fun p => !gs.any fun g => Intersects (.point p) g)
    | .bound bd => multiPointCrossesBound mp bd

/-- README crosses source lineStringCrossesRing: inside and outside
witnesses among vertices and midpoints, boundary points skipped. -/
def lineStringCrossesRing (ls r : List Pt) : Bool :=
  let inner := fun (p : Pt) => !pointOnRingBoundary p r && ringContains r p
  let outer := fun (p : Pt) => !pointOnRingBoundary p r && !ringContains r p
  ((ls.any fun p => inner p) ||
   ((edges ls).any fun e => inner (midpoint e.1 e.2))) &&
  ((ls.any fun p => outer p) ||
   ((edges ls).any fun e => outer (midpoint e.1 e.2)))

/-- README crosses source lineStringCrossesPolygonArea: a witness
strictly inside the area and a witness strictly outside it, drawn from
the line's vertices and segment midpoints, boundary points skipped. -/
def lineStringCrossesPolygonArea (ls : List Pt) (poly : List (List Pt)) : Bool :=
  match poly with
  | [] => false
  | _ =>
    let inner := fun (p : Pt) => !pointOnPolygonBoundary p poly && polygonContains poly p
    let outer := fun (p : Pt) => !pointOnPolygonBoundary p poly && !polygonContains poly p
    ((ls.any fun p => inner p) ||
     ((edges ls).any fun e => inner (midpoint e.1 e.2))) &&
    ((ls.any fun p => outer p) ||
     ((edges ls).any fun e => outer (midpoint e.1 e.2)))

/-- README crosses source lineStringCrossesBound (a vertex in the
tolerance shell of the rectangle sets neither witness). -/
def lineStringCrossesBound (ls : List Pt) (bd : GBound) : Bool :=
  let inner := fun (p : Pt) => !pointOnBoundBoundary p bd && boundContainsPointInterior bd p
  let outer := fun (p : Pt) =>
    !pointOnBoundBoundary p bd && !boundContainsPointInterior bd p && !boundContainsPoint bd p
  ((ls.any fun p => inner p) ||
   ((edges ls).any fun e => inner (midpoint e.1 e.2))) &&
  ((ls.any fun p => outer p) ||
   ((edges ls).any fun e => outer (midpoint e.1 e.2)))

/-- README crosses source crossesLineString: fuelled form. -/
def crossesLineStringF : Nat → List Pt → Geometry → Bool
  | 0, _, _ => false
  | fuel + 1, ls, b =>
    if ls.length < 2 then false
    else
      match b with
      | .point _ => false
      | .multiPoint mp => crossesMultiPoint mp (.lineString ls)
      | .lineString ls2 => lineStringCrossesLineString ls ls2
      | .multiLineString mls =>
        !(mls.any fun ls2 => linesHaveSegmentOverlap ls ls2) &&
        (mls.any fun ls2 => lineStringCrossesLineString ls ls2)
      | .ring r => lineStringCrossesRing ls r
      | .polygon poly => lineStringCrossesPolygonArea ls poly
      | .multiPolygon mp => mp.any fun poly => lineStringCrossesPolygonArea ls poly
      | .collection gs => gs.any fun g => crossesLineStringF fuel ls g
      | .bound bd => lineStringCrossesBound ls bd

/-- README crosses source crossesLineString. -/
def crossesLineString (ls : List Pt) (b : Geometry) : Bool :=
  crossesLineStringF (gdepth b + 1) ls b

/-- README crosses source crossesMultiLineString: fuelled form. -/
def crossesMultiLineStringF : Nat → List (List Pt) → Geometry → Bool
  | 0, _, _ => false
  | fuel + 1, mls, b =>
    match b with
    | .point _ => false
    | .multiPoint mp => crossesMultiPoint mp (.multiLineString mls)
    | .lineString ls =>
      !(mls.any fun l => linesHaveSegmentOverlap l ls) &&
      (mls.any fun l => lineStringCrossesLineString l ls)
    | .multiLineString mls2 =>
      !(mls.any fun l1 => mls2.any fun l2 => linesHaveSegmentOverlap l1 l2) &&
      (mls.any fun l1 => mls2.any fun l2 => lineStringCrossesLineString l1 l2)
    | .ring r => mls.any fun l => lineStringCrossesRing l r
    | .polygon poly => mls.any fun l => lineStringCrossesPolygonArea l poly
    | .multiPolygon mp =>
      mls.any fun l => mp.any fun poly => lineStringCrossesPolygonArea l poly
    | .collection gs => gs.any fun g => crossesMultiLineStringF fuel mls g
    | .bound bd => mls.any fun l => lineStringCrossesBound l bd

/-- README crosses source crossesMultiLineString. -/
def crossesMultiLineString (mls : List (List Pt)) (b : Geometry) : Bool :=
  crossesMultiLineStringF (gdepth b + 1) mls b

/-- README crosses source crossesRing. -/
def crossesRing (r : List Pt) (b : Geometry) : Bool :=
  match b with
  | .point _ => false
  | .multiPoint mp => crossesMultiPoint mp (.ring r)
  | .lineString ls => lineStringCrossesRing ls r
  | .multiLineString mls => mls.any fun ls => lineStringCrossesRing ls r
  | _ => false

/-- README crosses source crossesPolygon. -/
def crossesPolygon (poly : List (List Pt)) (b : Geometry) : Bool :=
  match b with
  | .point _ => false
  | .multiPoint mp => crossesMultiPoint mp (.polygon poly)
  | .lineString ls => lineStringCrossesPolygonArea ls poly
  | .multiLineString mls => mls.any fun ls => lineStringCrossesPolygonArea ls poly
  | _ => false

/-- README crosses source crossesMultiPolygon. -/
def crossesMultiPolygon (mp : List (List (List Pt))) (b : Geometry) : Bool :=
  match b with
  | .point _ => false
  | .multiPoint ps => crossesMultiPoint ps (.multiPolygon mp)
  | .lineString ls => mp.any fun poly => lineStringCrossesPolygonArea ls poly
  | .multiLineString mls =>
    mls.any fun ls => mp.any fun poly => lineStringCrossesPolygonArea ls poly
  | _ => false

/-- README crosses source crossesBound. -/
def crossesBound (bd : GBound) (b : Geometry) : Bool :=
  match b with
  | .point _ => false
  | .multiPoint mp => crossesMultiPoint mp (.bound bd)
  | .lineString ls => lineStringCrossesBound ls bd
  | .multiLineString mls => mls.any fun ls => lineStringCrossesBound ls bd
  | _ => false

/-- README crosses source Crosses: fuelled form.  Operands of equal
dimension other than one cannot cross. -/
def CrossesF : Nat → Geometry → Geometry → Bool
  | 0, _, _ => false
  | fuel + 1, a, b =>
    if isEmpty a || isEmpty b then false
    else if !boundingBoxOverlap a b then false
    else if gdim a == gdim b && gdim a != 1 then false
    else
      match a with
      | .point _ => false
      | .multiPoint mp => crossesMultiPoint mp b
      | .lineString ls => crossesLineString ls b
      | .multiLineString mls => crossesMultiLineString mls b
      | .ring r => crossesRing r b
      | .polygon poly => crossesPolygon poly b
      | .multiPolygon mp => crossesMultiPolygon mp b
      | .collection gs => gs.any fun g => CrossesF fuel g b
      | .bound bd => crossesBound bd b

/-- README crosses source Crosses. -/
def Crosses (a b : Geometry) : Bool :=
  CrossesF (gdepth a + 1) a b

/-- predicates.go Crosses: the stub definition, which always returns
false. -/
def CrossesStub (_a _b : Geometry) : Bool :=
  false

/-! Shared lemmas. -/

lemma listAnyCongr {α : Type} {f g : α → Bool} :
    ∀ l : List α, (∀ x ∈ l, f x = g x) → l.any f = l.any g := by
  intro l h
  induction l with
  | nil => rfl
  | cons x xs ih =>
    simp only [List.any_cons]
    rw [h x (by simp), ih fun y hy => h y (by simp [hy])]

lemma listAllCongr {α : Type} {f g : α → Bool} :
    ∀ l : List α, (∀ x ∈ l, f x = g x) → l.all f = l.all g := by
  intro l h
  induction l with
  | nil => rfl
  | cons x xs ih =>
    simp only [List.all_cons]
    rw [h x (by simp), ih fun y hy => h y (by simp [hy])]

lemma listAnySwap {α β : Type} (l1 : List α) (l2 : List β) (f : α → β → Bool) :
    (l1.any fun a => l2.any fun b => f a b) = l2.any fun b => l1.any fun a => f a b := by
  rw [Bool.eq_iff_iff]
  simp only [List.any_eq_true]
  constructor
  · rintro ⟨a, ha, b, hb, hf⟩
    exact ⟨b, hb, a, ha, hf⟩
  · rintro ⟨b, hb, a, ha, hf⟩
    exact ⟨a, ha, b, hb, hf⟩

lemma listAnyMap {α β : Type} (f : α → β) (p : β → Bool) :
    ∀ l : List α, (l.map f).any p = l.any fun a => p (f a) := by
  intro l
  induction l with
  | nil => rfl
  | cons x xs ih => simp only [List.map_cons, List.any_cons, ih]

lemma int_abs_flip (u v : Int) :
    (if u - v < 0 then -(u - v) else u - v) = (if v - u < 0 then -(v - u) else v - u) := by
  split_ifs <;> omega

lemma le_eq_of_sub_eq {a b c d : Int} (h : b - a = d - c) : (a ≤ b) = (c ≤ d) := by
  apply propext
  omega

lemma lt_eq_of_sub_eq {a b c d : Int} (h : b - a = d - c) : (a < b) = (c < d) := by
  apply propext
  omega

lemma qlt_abs_sub (a b c : Q) : qLt (qAbs (qSub a b)) c = qLt (qAbs (qSub b a)) c := by
  simp only [qLt, qAbs, qSub]
  rw [int_abs_flip, Int.mul_comm a.d b.d]

lemma pointsEqual_comm (p q : Pt) : pointsEqual p q = pointsEqual q p := by
  simp only [pointsEqual]
  rw [qlt_abs_sub p.x q.x, qlt_abs_sub p.y q.y]

lemma qle_shift (x y : Q) : qLe x (qAdd y epsilon) = qLe (qSub x epsilon) y := by
  simp only [qLe, qAdd, qSub, epsilon]
  rw [decide_eq_decide]
  exact iff_of_eq (le_eq_of_sub_eq (by ring))

lemma bool_shuffle_bbox (p q r s : Bool) : (p && q && r && s) = (q && p && s && r) := by
  revert p q r s
  decide

lemma boundingBoxOverlap_comm (a b : Geometry) :
    boundingBoxOverlap a b = boundingBoxOverlap b a := by
  simp only [boundingBoxOverlap]
  rw [qle_shift (geomBound a).min.x (geomBound b).max.x,
      qle_shift (geomBound a).min.y (geomBound b).max.y,
      show qLe (qSub (geomBound b).min.x epsilon) (geomBound a).max.x
           = qLe (geomBound b).min.x (qAdd (geomBound a).max.x epsilon) from
        (qle_shift (geomBound b).min.x (geomBound a).max.x).symm,
      show qLe (qSub (geomBound b).min.y epsilon) (geomBound a).max.y
           = qLe (geomBound b).min.y (qAdd (geomBound a).max.y epsilon) from
        (qle_shift (geomBound b).min.y (geomBound a).max.y).symm]
  exact bool_shuffle_bbox _ _ _ _

lemma bool_shuffle_seg (x y c1 c2 c3 c4 : Bool) :
    ((x && y) || c1 || c2 || c3 || c4) = ((y && x) || c3 || c4 || c1 || c2) := by
  revert x y c1 c2 c3 c4
  decide

lemma segmentsIntersect_comm (p1 p2 p3 p4 : Pt) :
    segmentsIntersect p1 p2 p3 p4 = segmentsIntersect p3 p4 p1 p2 := by
  simp only [segmentsIntersect]
  exact bool_shuffle_seg _ _ _ _ _ _

lemma lineStringsIntersect_comm (ls1 ls2 : List Pt) :
    lineStringsIntersect ls1 ls2 = lineStringsIntersect ls2 ls1 := by
  simp only [lineStringsIntersect]
  rw [listAnySwap]
  refine listAnyCongr _ fun e2 _ => listAnyCongr _ fun e1 _ => ?_
  exact segmentsIntersect_comm e1.1 e1.2 e2.1 e2.2

lemma ringBoundariesIntersect_comm (r1 r2 : List Pt) :
    ringBoundariesIntersect r1 r2 = ringBoundariesIntersect r2 r1 := by
  simp only [ringBoundariesIntersect]
  rw [listAnySwap]
  refine listAnyCongr _ fun e2 _ => listAnyCongr _ fun e1 _ => ?_
  exact segmentsIntersect_comm e1.1 e1.2 e2.1 e2.2

lemma bool_shuffle_or3 (x y z : Bool) : (x || y || z) = (x || z || y) := by
  revert x y z
  decide

lemma ringsIntersect_comm (r1 r2 : List Pt) :
    ringsIntersect r1 r2 = ringsIntersect r2 r1 := by
  simp only [ringsIntersect]
  rw [show ((edges r1).any fun e1 => (edges r2).any fun e2 =>
          segmentsIntersect e1.1 e1.2 e2.1 e2.2)
        = ((edges r2).any fun e1 => (edges r1).any fun e2 =>
          segmentsIntersect e1.1 e1.2 e2.1 e2.2) from ?_]
  · exact bool_shuffle_or3 _ _ _
  · rw [listAnySwap]
    exact listAnyCongr _ fun a _ => listAnyCongr _ fun b _ =>
      segmentsIntersect_comm b.1 b.2 a.1 a.2

lemma polygonsIntersect_comm (p1 p2 : List (List Pt)) :
    polygonsIntersect p1 p2 = polygonsIntersect p2 p1 := by
  match p1, p2 with
  | [], [] => rfl
  | [], _ :: _ => rfl
  | _ :: _, [] => rfl
  | e1 :: t1, e2 :: t2 =>
    simp only [polygonsIntersect]
    rw [show ((e1 :: t1).any fun r1 => (e2 :: t2).any fun r2 => ringBoundariesIntersect r1 r2)
          = ((e2 :: t2).any fun r1 => (e1 :: t1).any fun r2 => ringBoundariesIntersect r1 r2) from ?_]
    · exact bool_shuffle_or3 _ _ _
    · rw [listAnySwap]
      exact listAnyCongr _ fun a _ => listAnyCongr _ fun b _ =>
        ringBoundariesIntersect_comm b a

/-! Entry-guard lemmas for the predicate entry points. -/

lemma IntersectsF_guard_false (n : Nat) (a b : Geometry)
    (h : boundingBoxOverlap a b = false ∨ (isEmpty a || isEmpty b) = true) :
    IntersectsF n a b = false := by
  cases n with
  | zero => rfl
  | succ m =>
    rcases h with h | h
    · simp only [IntersectsF, h]
      rfl
    · cases hbb : boundingBoxOverlap a b <;> simp [IntersectsF, hbb, h]

lemma Intersects_guard_false (a b : Geometry)
    (h : boundingBoxOverlap a b = false ∨ (isEmpty a || isEmpty b) = true) :
    Intersects a b = false :=
  IntersectsF_guard_false _ a b h

lemma WithinF_empty (n : Nat) (a b : Geometry) (h : (isEmpty a || isEmpty b) = true) :
    WithinF n a b = false := by
  cases n with
  | zero => rfl
  | succ m =>
    simp only [WithinF]
    rw [if_pos h]

lemma CoversF_empty (n : Nat) (a b : Geometry) (h : (isEmpty a || isEmpty b) = true) :
    CoversF n a b = false := by
  cases n with
  | zero => rfl
  | succ m =>
    simp only [CoversF]
    rw [if_pos h]

lemma CrossesF_empty (n : Nat) (a b : Geometry) (h : (isEmpty a || isEmpty b) = true) :
    CrossesF n a b = false := by
  cases n with
  | zero => rfl
  | succ m =>
    simp only [CrossesF]
    rw [if_pos h]

lemma OverlapsF_empty (n : Nat) (a b : Geometry) (h : (isEmpty a || isEmpty b) = true) :
    OverlapsF n a b = false := by
  cases n with
  | zero => rfl
  | succ m =>
    simp only [OverlapsF]
    rw [if_pos h]

/-! Concrete geometries used by the claims. -/

/-- The square ring (0,0)-(10,0)-(10,10)-(0,10)-(0,0): the exterior of
the polygon S of the spec's concrete scenarios. -/
def sq10 : List Pt :=
  [⟨qi 0, qi 0⟩, ⟨qi 10, qi 0⟩, ⟨qi 10, qi 10⟩, ⟨qi 0, qi 10⟩, ⟨qi 0, qi 0⟩]

/-- The square ring (10,0)-(20,0)-(20,10)-(10,10)-(10,0): the exterior
of the polygon T abutting S along the edge x = 10. -/
def sqT10 : List Pt :=
  [⟨qi 10, qi 0⟩, ⟨qi 20, qi 0⟩, ⟨qi 20, qi 10⟩, ⟨qi 10, qi 10⟩, ⟨qi 10, qi 0⟩]

/-- A degenerate two-point ring along the x axis. -/
def degenerateRing : List Pt := [⟨qi 0, qi 0⟩, ⟨qi 10, qi 0⟩]

/-! Claim C1. -/

/-- C1: the spec's reflexivity law asks Within(a,a) = true, Covers(a,a)
= true, Touches(a,a) = false and Overlaps(a,a) = false for every
non-empty a.  Evaluating the code on the plain closed square ring:
ringWithinRing pairs every edge with itself, each such pair is
collinear with interior overlap, segmentsIntersectInterior reports an
interior crossing, and Within(a,a) comes out false; the other three
predicates agree with the law at this input. -/
theorem c1_reflexivity_eval :
    Within (.ring sq10) (.ring sq10) = false ∧
    Covers (.ring sq10) (.ring sq10) = true ∧
    Touches (.ring sq10) (.ring sq10) = false ∧
    Overlaps (.ring sq10) (.ring sq10) = false := by
  decide

/-! Claim C2. -/

/-- The witness points of the Line-Area crossing test: the line's
vertices and its segment midpoints. -/
def crossesWitnessPoints (ls : List Pt) : List Pt :=
  ls ++ (edges ls).map fun e => midpoint e.1 e.2

/-- Restates the spec's words for Line-Area Crosses: the line has a
strict-interior witness in the area and a witness strictly outside the
area, boundary points counting for neither, with witnesses drawn from
the line's vertices and segment midpoints. -/
def lineCrossesAreaSpec (ls : List Pt) (poly : List (List Pt)) : Bool :=
  ((crossesWitnessPoints ls).any fun w =>
    !pointOnPolygonBoundary w poly && polygonContains poly w) &&
  ((crossesWitnessPoints ls).any fun w =>
    !pointOnPolygonBoundary w poly && !polygonContains poly w)

/-- C2: the Line-Area case of Crosses agrees with the spec's
witness-based description, the concrete crossing of the square S by
the horizontal line from (-5,5) to (15,5) is reported, and the second
definition of Crosses present in the source (the predicates.go stub)
always returns false. -/
theorem c2_crosses_line_area :
    (∀ (ls : List Pt) (poly : List (List Pt)),
      lineStringCrossesPolygonArea ls poly = lineCrossesAreaSpec ls poly) ∧
    Crosses (.lineString [⟨qi (-5), qi 5⟩, ⟨qi 15, qi 5⟩]) (.polygon [sq10]) = true ∧
    (∀ a b : Geometry, CrossesStub a b = false) := by
  refine ⟨?_, by decide, fun a b => rfl⟩
  intro ls poly
  match poly with
  | [] =>
    show false = lineCrossesAreaSpec ls []
    simp [lineCrossesAreaSpec, polygonContains]
  | ext :: rest =>
    simp only [lineStringCrossesPolygonArea, lineCrossesAreaSpec, crossesWitnessPoints,
      List.any_append, listAnyMap]

/-! Claim C3. -/

lemma within_ls_short (ls : List Pt) (b : Geometry) (h : ls.length < 2) :
    Within (.lineString ls) b = false := by
  show WithinF (gdepth (.lineString ls) + 1) (.lineString ls) b = false
  simp only [gdepth, WithinF]
  split
  · rfl
  · split
    · rfl
    · show withinLineStringF (gdepth b + 1) ls b = false
      simp only [withinLineStringF]
      rw [if_pos h]

lemma within_ring_short (r : List Pt) (b : Geometry) (h : r.length < 4) :
    Within (.ring r) b = false := by
  show WithinF (gdepth (.ring r) + 1) (.ring r) b = false
  simp only [gdepth, WithinF]
  split
  · rfl
  · split
    · rfl
    · show withinRingF (gdepth b + 1) r b = false
      simp only [withinRingF]
      rw [if_pos h]

lemma within_polygon_short (ext : List Pt) (rest : List (List Pt)) (b : Geometry)
    (h : ext.length < 4) : Within (.polygon (ext :: rest)) b = false := by
  show WithinF (gdepth (.polygon (ext :: rest)) + 1) (.polygon (ext :: rest)) b = false
  simp only [gdepth, WithinF]
  split
  · rfl
  · split
    · rfl
    · show withinPolygonF (gdepth b + 1) (ext :: rest) b = false
      simp only [withinPolygonF]
      rw [if_pos h]

/-- C3 counterexample: a two-point ring is degenerate (fewer than four
vertices) but Intersects reports the point on its single edge, so
Disjoint is false and Touches is even true, against the claim that all
predicates treat degenerate operands as empty. -/
theorem c3_degenerate_counterexample :
    Intersects (.ring degenerateRing) (.point ⟨qi 5, qi 0⟩) = true ∧
    Disjoint (.ring degenerateRing) (.point ⟨qi 5, qi 0⟩) = false ∧
    Touches (.ring degenerateRing) (.point ⟨qi 5, qi 0⟩) = true := by
  decide

/-- C3 amended: a degenerate first operand (linestring of fewer than
two points, ring of fewer than four, polygon whose exterior has fewer
than four) makes Within return false, and Contains with the degenerate
geometry as second operand likewise; the remaining predicates do not
treat degenerate operands as empty. -/
theorem c3_degenerate_within_false :
    (∀ (ls : List Pt) (b : Geometry), ls.length < 2 →
      Within (.lineString ls) b = false ∧ Contains b (.lineString ls) = false) ∧
    (∀ (r : List Pt) (b : Geometry), r.length < 4 →
      Within (.ring r) b = false ∧ Contains b (.ring r) = false) ∧
    (∀ (ext : List Pt) (rest : List (List Pt)) (b : Geometry), ext.length < 4 →
      Within (.polygon (ext :: rest)) b = false ∧
      Contains b (.polygon (ext :: rest)) = false) :=
  ⟨fun ls b h => ⟨within_ls_short ls b h, within_ls_short ls b h⟩,
   fun r b h => ⟨within_ring_short r b h, within_ring_short r b h⟩,
   fun ext rest b h => ⟨within_polygon_short ext rest b h, within_polygon_short ext rest b h⟩⟩

theorem c3_degenerate_within_false_witness :
    degenerateRing.length < 4 ∧
    Within (.ring degenerateRing) (.polygon [sq10]) = false :=
  ⟨by decide, (c3_degenerate_within_false.2.1 degenerateRing (.polygon [sq10]) (by decide)).1⟩

/-! Claim C5. -/

/-- C5: an empty operand on either side makes Within, Contains,
Covers, CoveredBy, Intersects, Crosses, Overlaps and Touches return
false, and Disjoint return true. -/
theorem c5_empty_operands (e g : Geometry) (h : isEmpty e = true) :
    Within e g = false ∧ Within g e = false ∧
    Contains e g = false ∧ Contains g e = false ∧
    Covers e g = false ∧ Covers g e = false ∧
    CoveredBy e g = false ∧ CoveredBy g e = false ∧
    Intersects e g = false ∧ Intersects g e = false ∧
    Crosses e g = false ∧ Crosses g e = false ∧
    Overlaps e g = false ∧ Overlaps g e = false ∧
    Touches e g = false ∧ Touches g e = false ∧
    Disjoint e g = true ∧ Disjoint g e = true := by
  have hl : (isEmpty e || isEmpty g) = true := by simp [h]
  have hr : (isEmpty g || isEmpty e) = true := by simp [h]
  have hil : Intersects e g = false := Intersects_guard_false e g (Or.inr hl)
  have hir : Intersects g e = false := Intersects_guard_false g e (Or.inr hr)
  refine ⟨WithinF_empty _ e g hl, WithinF_empty _ g e hr,
    WithinF_empty _ g e hr, WithinF_empty _ e g hl,
    CoversF_empty _ e g hl, CoversF_empty _ g e hr,
    CoversF_empty _ g e hr, CoversF_empty _ e g hl,
    hil, hir,
    CrossesF_empty _ e g hl, CrossesF_empty _ g e hr,
    OverlapsF_empty _ e g hl, OverlapsF_empty _ g e hr,
    ?_, ?_, ?_, ?_⟩
  · simp [Touches, hl]
  · simp [Touches, hr]
  · simp [Disjoint, hil]
  · simp [Disjoint, hir]

theorem c5_empty_operands_witness :
    isEmpty (.lineString ([] : List Pt)) = true ∧
    Within (.lineString ([] : List Pt)) (.point ⟨qi 0, qi 0⟩) = false :=
  ⟨rfl, (c5_empty_operands (.lineString []) (.point ⟨qi 0, qi 0⟩) rfl).1⟩

/-! Claim C6. -/

/-- C6: Touches is exactly Intersects with non-intersecting interiors;
the empty and bounding-box guards at its entry cannot change the
equality because Intersects is already false in those situations. -/
theorem c6_touches_decomposition (a b : Geometry) :
    Touches a b = (Intersects a b && !interiorsIntersect a b) := by
  simp only [Touches]
  cases he : (isEmpty a || isEmpty b) with
  | true =>
    have hi : Intersects a b = false := Intersects_guard_false a b (Or.inr he)
    simp [he, hi]
  | false =>
    cases hbb : boundingBoxOverlap a b with
    | false =>
      have hi : Intersects a b = false := Intersects_guard_false a b (Or.inl hbb)
      simp [he, hbb, hi]
    | true =>
      cases hi : Intersects a b <;> simp [he, hbb, hi]

/-! Claim C7. -/

/-- C7: a point on the boundary of the square polygon S is not within
S, is covered by S, and touches S. -/
theorem c7_boundary_point :
    Within (.point ⟨qi 5, qi 0⟩) (.polygon [sq10]) = false ∧
    Covers (.polygon [sq10]) (.point ⟨qi 5, qi 0⟩) = true ∧
    Touches (.point ⟨qi 5, qi 0⟩) (.polygon [sq10]) = true := by
  decide

/-! Claim C8. -/

/-- C8: the line from (5,5) to (15,5) spans the shared edge of the two
abutting squares S and T and is Within their MultiPolygon: no single
polygon contains it, but every vertex and every sample point along it
lies in the closure of some component (the vertex-y-level probes are
skipped because the segment is horizontal), and the vertex (5,5) is a
strict-interior witness. -/
theorem c8_line_within_multipolygon :
    Within (.lineString [⟨qi 5, qi 5⟩, ⟨qi 15, qi 5⟩])
      (.multiPolygon [[sq10], [sqT10]]) = true := by
  decide

/-! Claim C10. -/

/-- C10: for a ring against a non-empty polygon, the
interior-intersection kernel is decided solely by the two
vertex-average centroid probes: the ring's centroid strictly inside
both, or the centroid of the polygon's exterior ring strictly inside
both. -/
theorem c10_ring_polygon_interior_probes (r ext : List Pt) (rest : List (List Pt)) :
    interiorsIntersect (.ring r) (.polygon (ext :: rest)) =
      ((pointInRingInterior (ringCentroid r) r &&
        pointInPolygonInterior (ringCentroid r) (ext :: rest)) ||
       (pointInPolygonInterior (ringCentroid ext) (ext :: rest) &&
        pointInRingInterior (ringCentroid ext) r)) := by
  rfl

/-! Claim C9. -/

/-- The square polygon with a hole lying far outside its exterior
ring; only coversBound walks such a hole. -/
def polyFarHole : List (List Pt) :=
  [[⟨qi 2, qi 2⟩, ⟨qi 8, qi 2⟩, ⟨qi 8, qi 8⟩, ⟨qi 2, qi 8⟩, ⟨qi 2, qi 2⟩],
   [⟨qi 20, qi 20⟩, ⟨qi 21, qi 20⟩, ⟨qi 21, qi 21⟩, ⟨qi 20, qi 21⟩, ⟨qi 20, qi 20⟩]]

/-- C9 counterexample: when the covering geometry is a Bound, Covers
walks every ring of the covered polygon, holes included, so a hole
outside the rectangle flips the answer while the exterior-only
polygon is covered. -/
theorem c9_covers_holes_counterexample :
    Covers (.bound ⟨⟨qi 0, qi 0⟩, ⟨qi 10, qi 10⟩⟩) (.polygon polyFarHole) = false ∧
    Covers (.bound ⟨⟨qi 0, qi 0⟩, ⟨qi 10, qi 10⟩⟩)
      (.polygon [[⟨qi 2, qi 2⟩, ⟨qi 8, qi 2⟩, ⟨qi 8, qi 8⟩, ⟨qi 2, qi 8⟩, ⟨qi 2, qi 2⟩]]) = true := by
  decide

mutual

/-- True when no Bound variant occurs anywhere in the geometry,
descending through collections. -/
def noBound : Geometry → Bool
  | .point _ => true
  | .multiPoint _ => true
  | .lineString _ => true
  | .multiLineString _ => true
  | .ring _ => true
  | .polygon _ => true
  | .multiPolygon _ => true
  | .collection gs => noBoundL gs
  | .bound _ => false

def noBoundL : List Geometry → Bool
  | [] => true
  | g :: gs => noBound g && noBoundL gs

end

lemma noBound_members (gs : List Geometry) (h : noBoundL gs = true) :
    ∀ g ∈ gs, noBound g = true := by
  induction gs with
  | nil => intro g hg; cases hg
  | cons x xs ih =>
    simp only [noBoundL, Bool.and_eq_true] at h
    intro g hg
    rcases List.mem_cons.mp hg with rfl | hg
    · exact h.1
    · exact ih h.2 g hg

lemma coversF_exterior (fuel : Nat) :
    ∀ (a : Geometry), noBound a = true → ∀ (ext : List Pt) (rest : List (List Pt)),
      CoversF fuel a (.polygon (ext :: rest)) = CoversF fuel a (.polygon [ext]) := by
  induction fuel with
  | zero => intro a _ ext rest; rfl
  | succ n ih =>
    intro a ha ext rest
    cases a with
    | point p => rfl
    | multiPoint mp => rfl
    | lineString ls => rfl
    | multiLineString mls => rfl
    | ring r => rfl
    | polygon poly => rfl
    | multiPolygon mp => rfl
    | bound bd => exact absurd ha (by simp [noBound])
    | collection gs =>
      have hm := noBound_members gs (by simpa [noBound] using ha)
      simp only [CoversF]
      refine if_congr Iff.rfl rfl (if_congr Iff.rfl rfl ?_)
      exact listAnyCongr gs fun g hg => ih g (hm g hg) ext rest

/-- C9 amended: Covers of a polygon is decided entirely from the
polygon's exterior ring, provided the covering geometry contains no
Bound variant (a Bound on the covering side, directly or inside a
collection, also examines the holes). -/
theorem c9_covers_exterior_only (a : Geometry) (h : noBound a = true)
    (ext : List Pt) (rest : List (List Pt)) :
    Covers a (.polygon (ext :: rest)) = Covers a (.polygon [ext]) :=
  coversF_exterior _ a h ext rest

theorem c9_covers_exterior_only_witness :
    noBound (.point ⟨qi 0, qi 0⟩) = true ∧
    Covers (.point ⟨qi 0, qi 0⟩) (.polygon (sq10 :: [degenerateRing])) =
      Covers (.point ⟨qi 0, qi 0⟩) (.polygon [sq10]) :=
  ⟨rfl, c9_covers_exterior_only (.point ⟨qi 0, qi 0⟩) rfl sq10 [degenerateRing]⟩

/-! Claim C4. -/

/-- True exactly on the Collection variant. -/
def isCollectionG : Geometry → Bool
  | .collection _ => true
  | _ => false

/-- True exactly on the Bound variant. -/
def isBoundVariant : Geometry → Bool
  | .bound _ => true
  | _ => false

/-- Horizontal segment touched from above within epsilon. -/
def lsTouchA : List Pt := [⟨qi 0, qi 0⟩, ⟨qi 10, qi 0⟩]

/-- Segment ending a hair above lsTouchA's interior. -/
def lsTouchB : List Pt := [⟨qi 4, qi 0⟩, ⟨qi 6, ⟨1, 10000000000⟩⟩]

/-- Unit horizontal segment. -/
def lsOvA : List Pt := [⟨qi 0, qi 0⟩, ⟨qi 1, qi 0⟩]

/-- Segment whose midpoint sits a hair off lsOvA. -/
def lsOvB : List Pt := [⟨qi 2, qi 0⟩, ⟨⟨1, 2⟩, ⟨1, 10000000000⟩⟩]

/-- One point on sq10's edge, one outside. -/
def mpCross : List Pt := [⟨qi 5, qi 0⟩, ⟨qi 20, qi 20⟩]

/-- Point just outside bd10, inside its epsilon fringe. -/
def shellPoint : Pt := ⟨⟨-1, 20000000000⟩, qi 5⟩

/-- The 10x10 bound at the origin. -/
def bd10 : GBound := ⟨⟨qi 0, qi 0⟩, ⟨qi 10, qi 10⟩⟩

/-- Unit square polygon with a hole far outside it. -/
def polyStrayHole : List (List Pt) :=
  [[⟨qi 0, qi 0⟩, ⟨qi 1, qi 0⟩, ⟨qi 1, qi 1⟩, ⟨qi 0, qi 1⟩, ⟨qi 0, qi 0⟩],
   [⟨qi 100, qi 100⟩, ⟨qi 101, qi 100⟩, ⟨qi 101, qi 101⟩, ⟨qi 100, qi 101⟩, ⟨qi 100, qi 100⟩]]

/-- Collection pairing polyStrayHole with a far point. -/
def collStray : Geometry := .collection [.polygon polyStrayHole, .point ⟨qi 200, qi 200⟩]

/-- Point on the stray hole's bottom edge. -/
def holeEdgePoint : Pt := ⟨⟨201, 2⟩, qi 100⟩

/-- C4 counterexample: Touches, Overlaps, Crosses and Intersects each
return different answers when their arguments are swapped, so symmetry
fails outside the Intersects/Disjoint pair, and even Intersects and
Disjoint are asymmetric once a Bound or Collection operand appears. -/
theorem c4_symmetry_counterexample :
    Touches (.lineString lsTouchA) (.lineString lsTouchB) = false ∧
    Touches (.lineString lsTouchB) (.lineString lsTouchA) = true ∧
    Overlaps (.lineString lsOvA) (.lineString lsOvB) = true ∧
    Overlaps (.lineString lsOvB) (.lineString lsOvA) = false ∧
    Crosses (.multiPoint mpCross) (.collection [.polygon [sq10]]) = true ∧
    Crosses (.collection [.polygon [sq10]]) (.multiPoint mpCross) = false ∧
    Intersects (.point shellPoint) (.bound bd10) = true ∧
    Intersects (.bound bd10) (.point shellPoint) = false ∧
    Intersects (.point holeEdgePoint) collStray = true ∧
    Intersects collStray (.point holeEdgePoint) = false ∧
    Disjoint (.point shellPoint) (.bound bd10) = false ∧
    Disjoint (.bound bd10) (.point shellPoint) = true := by
  decide

lemma anyAnySwapComm {α β : Type} (l1 : List α) (l2 : List β)
    (f : α → β → Bool) (g : β → α → Bool) (h : ∀ a b, f a b = g b a) :
    (l1.any fun a => l2.any fun b => f a b) = l2.any fun b => l1.any fun a => g b a := by
  rw [listAnySwap]
  exact listAnyCongr _ fun b _ => listAnyCongr _ fun a _ => h a b

lemma entry_congr {a b : Geometry} {x y : Bool} (h : x = y) :
    (if !boundingBoxOverlap a b then false
     else if isEmpty a || isEmpty b then false else x) =
    (if !boundingBoxOverlap b a then false
     else if isEmpty b || isEmpty a then false else y) := by
  rw [boundingBoxOverlap_comm a b, Bool.or_comm (isEmpty a), h]

lemma intersects_symm_aux (a b : Geometry)
    (ha1 : isCollectionG a = false) (ha2 : isBoundVariant a = false)
    (hb1 : isCollectionG b = false) (hb2 : isBoundVariant b = false) :
    Intersects a b = Intersects b a := by
  cases a <;> cases b <;>
    first
    | exact Bool.noConfusion ha1
    | exact Bool.noConfusion ha2
    | exact Bool.noConfusion hb1
    | exact Bool.noConfusion hb2
    | (simp only [Intersects, gdepth, IntersectsF]
       first
       | exact entry_congr rfl
       | exact entry_congr (pointsEqual_comm _ _)
       | exact entry_congr (lineStringsIntersect_comm _ _)
       | exact entry_congr (ringsIntersect_comm _ _)
       | exact entry_congr (polygonsIntersect_comm _ _)
       | exact entry_congr (listAnyCongr _ fun u _ => pointsEqual_comm _ _)
       | exact entry_congr (listAnyCongr _ fun u _ => lineStringsIntersect_comm _ _)
       | exact entry_congr (listAnyCongr _ fun u _ => polygonsIntersect_comm _ _)
       | exact entry_congr (listAnySwap _ _ _)
       | exact entry_congr ((listAnySwap _ _ _).symm)
       | exact entry_congr (anyAnySwapComm _ _ _ _ fun u v => pointsEqual_comm u v)
       | exact entry_congr (anyAnySwapComm _ _ _ _ fun u v => lineStringsIntersect_comm u v)
       | exact entry_congr (anyAnySwapComm _ _ _ _ fun u v => polygonsIntersect_comm u v))

/-- C4 amended: Intersects and Disjoint are symmetric whenever neither
operand is a Collection or a Bound; the remaining predicates, and
Intersects/Disjoint with Collection or Bound operands, are not. -/
theorem c4_intersects_disjoint_symm (a b : Geometry)
    (ha1 : isCollectionG a = false) (ha2 : isBoundVariant a = false)
    (hb1 : isCollectionG b = false) (hb2 : isBoundVariant b = false) :
    Intersects a b = Intersects b a ∧ Disjoint a b = Disjoint b a := by
  have h := intersects_symm_aux a b ha1 ha2 hb1 hb2
  exact ⟨h, by simp only [Disjoint, h]⟩

theorem c4_intersects_disjoint_symm_witness :
    isCollectionG (.point ⟨qi 5, qi 5⟩) = false ∧
    isBoundVariant (.point ⟨qi 5, qi 5⟩) = false ∧
    isCollectionG (.polygon [sq10]) = false ∧
    isBoundVariant (.polygon [sq10]) = false ∧
    (Intersects (.point ⟨qi 5, qi 5⟩) (.polygon [sq10]) =
        Intersects (.polygon [sq10]) (.point ⟨qi 5, qi 5⟩) ∧
      Disjoint (.point ⟨qi 5, qi 5⟩) (.polygon [sq10]) =
        Disjoint (.polygon [sq10]) (.point ⟨qi 5, qi 5⟩)) :=
  ⟨rfl, rfl, rfl, rfl,
    c4_intersects_disjoint_symm (.point ⟨qi 5, qi 5⟩) (.polygon [sq10]) rfl rfl rfl rfl⟩

end OrbPred
